import Mathlib

/-!
Data-feeding layers: cursor, segment sampler and fill loop.

A shallow embedding of

* `VideoDataKDRFLayer` (`src/caffe/layers/video_data_layer_kd_rgb_flow.cpp`,
  `include/caffe/data_layers.hpp`): `DataLayerSetUp`, `ShuffleVideos`,
  the fill loop of `InternalThreadEntry`, `advance_cursor`, `OffsetCursor`;
* `DataLayer::advance_cursor` (`include/caffe/data_layers.hpp`).

Conventions.

* C++ `int` values are `Int`; `/` on `int` is `Int.tdiv` (truncation towards
  zero).  The results of `int` additions, subtractions and multiplications in
  the offset computation are reduced to 32 bits with `wrapI32` (two's-complement
  wrap-around, what the compiled code keeps).  The one place where the source
  mixes `uint32_t` and `int`
  (`(*frame_rng)() % (average_duration - new_length + 1)`) is modelled with the
  explicit conversions `toU32` / `toI32`.
* A run either yields a value or stops with a `Fault`: `fatal` is a failed
  `CHECK` / `LOG(FATAL)`, `undefined` is an operation the language leaves
  undefined (division by zero, `operator[]` out of range, null dereference).
* Random generators, the decoders and the transformer are collaborators that
  are not part of the two source files; they are the fields of `Collab`.
-/

namespace caffe

/-- The two ways a run stops without a value. -/
inductive Fault where
  /-- A failed `CHECK` or a `LOG(FATAL)`. -/
  | fatal
  /-- Undefined behaviour: division by zero, index out of range, null dereference. -/
  | undefined
  deriving DecidableEq, Repr

/-- Result of a run. -/
abbrev Run (α : Type) : Type := Except Fault α

/-- Phase of the net (`this->phase_`). -/
inductive Phase where
  | TRAIN
  | TEST
  deriving DecidableEq, Repr

/-- Values of `VideoDataKDRFParameter_Modality`. -/
inductive Modality where
  | RGB
  | FLOW
  deriving DecidableEq, Repr

/-- Conversion of an `int` to `unsigned int` (32 bits). -/
def toU32 (x : Int) : Nat := (x % 4294967296).toNat

/-- Conversion of an `unsigned int` to `int` (32 bits, two's complement). -/
def toI32 (u : Nat) : Int :=
  if u % 4294967296 < 2147483648 then ((u % 4294967296 : Nat) : Int)
  else ((u % 4294967296 : Nat) : Int) - 4294967296

/-- The 32-bit `int` an exact integer result is kept as (two's-complement
wrap-around); the identity on `[-2^31, 2^31)`. -/
def wrapI32 (x : Int) : Int := toI32 (toU32 x)

/-- The function `vector::operator[]`: reading past the end is undefined. -/
def idx {α : Type} (xs : List α) (i : Nat) : Run α :=
  match xs.get? i with
  | some x => .ok x
  | none => .error .undefined

/-- Rearrangement of `xs` that puts `xs[idx[k]]` at position `k`. -/
def permuteBy {α : Type} (ix : List Nat) (xs : List α) : List α :=
  ix.filterMap (fun j => xs.get? j)

/-- Collaborators of the layer that live outside the two source files.

* `mkRng seed` is `new Caffe::RNG(seed)`; `draw g` is one call `(*rng)()` of the
  `caffe::rng_t` generator (a 32-bit value, reduced modulo `2^32` where used).
* Modelled from the spec: `shuffle(begin, end, rng)` of `caffe/util/rng.hpp` is
  not among the source files.  The spec says the list is "permuted via a seeded
  pseudo-random generator": `shuffleIdx g n` is the arrangement of the indices
  `0 .. n-1` the generator in state `g` produces for a sequence of length `n`,
  with the generator state afterwards.  It depends on the generator state and
  the length only, never on the elements.
* `ReadSegmentFlowToDatum_KDRF` and `ReadSegmentRGBToDatum` are the decoders;
  `none` is the `false` return.  `Transform` is `data_transformer_->Transform`.
* `toDtype x` is the value the conversion of the `int` `x` to `Dtype` yields in
  `top_label[item_id] = lines_[lines_id_].second`: `x` itself for `double`, `x`
  rounded to 24 significant bits for `float`.  The result is integer-valued
  either way and is kept as an `Int`.
* `channels`, `height`, `width` read the shape of a decoded datum, `blank` is
  the content of freshly shaped blob memory. -/
structure Collab (G Datum Sample : Type) where
  mkRng : Nat → G
  draw : G → Nat × G
  shuffleIdx : G → Nat → List Nat × G
  ReadSegmentFlowToDatum_KDRF :
    String → String → String → Int → List Int → Int → Int → Int → Option Datum
  ReadSegmentRGBToDatum :
    String → Int → List Int → Int → Int → Int → Bool → Option Datum
  Transform : Datum → Sample
  toDtype : Int → Int
  channels : Datum → Nat
  height : Datum → Nat
  width : Datum → Nat
  blank : Sample

/-- The fields of `video_data_kdrf_param` the layer reads. -/
structure VideoDataKDRFParameter where
  batch_size : Int
  new_height : Int
  new_width : Int
  new_length : Int
  num_segments : Int
  shuffle : Bool
  modality : Modality
  deriving Repr

/-- The parts of `layer_param_` (and `phase_`) the layer reads.
`video_data_param_shuffle` is `layer_param_.video_data_param().shuffle()`, the
field `VideoDataKDRFLayer::advance_cursor` consults. -/
structure LayerParameter where
  video_data_kdrf_param : VideoDataKDRFParameter
  video_data_param_shuffle : Bool
  crop_size : Int
  phase : Phase
  deriving Repr

/-- A blob holding one sample per slot: `count` is `Blob::count()`,
`cpu_data i` the content of slot `i`. -/
structure Blob (α : Type) where
  count : Nat
  cpu_data : Nat → α

/-- Write `x` into slot `i`. -/
def Blob.write {α : Type} (b : Blob α) (i : Nat) (x : α) : Blob α :=
  { b with cpu_data := fun j => if j = i then x else b.cpu_data j }

/-- One line of the record-list file, in reading order:
`dir_mvs dir_tvl1 filename length label`. -/
structure InputLine where
  dir_mvs : String
  dir_tvl1 : String
  filename : String
  length : Int
  label : Int
  deriving Repr

/-- Member variables of `VideoDataKDRFLayer`. -/
structure VideoDataKDRFLayer (G Sample : Type) where
  lines_ : List (String × Int)
  lines_dir_ : List (String × String)
  lines_duration_ : List Int
  lines_id_ : Nat
  prefetch_rng_1_ : Option G
  prefetch_rng_2_ : Option G
  frame_prefetch_rng_ : G
  prefetch_data_ : Blob Sample
  prefetch_label_ : Blob Int

section KDRF

variable {G Datum Sample : Type}

/-- The segment-offset loop (`for (int i = 0; i < num_segments; ++i)`), with
`n` iterations left and loop variable `i`.  `train = true` is the branch
`phase_ == TRAIN` (and the loop of `DataLayerSetUp`); it draws from the frame
generator and reduces modulo `average_duration - new_length + 1`, a zero
divisor being undefined.  `train = false` is the deterministic branch.  Every
`int` result is reduced to 32 bits with `wrapI32`. -/
def offsetsLoop (c : Collab G Datum Sample) (train : Bool)
    (average_duration new_length : Int) : Nat → Int → G → Run (List Int × G)
  | 0, _, g => .ok ([], g)
  | n + 1, i, g =>
    if train then
      let r := c.draw g
      let m := toU32 (wrapI32 (average_duration - new_length + 1))
      if m = 0 then .error .undefined
      else
        let offset := toI32 ((r.1 % 4294967296) % m)
        match offsetsLoop c train average_duration new_length n (i + 1) r.2 with
        | .ok (rest, g2) => .ok (wrapI32 (offset + i * average_duration) :: rest, g2)
        | .error e => .error e
    else
      match offsetsLoop c train average_duration new_length n (i + 1) g with
      | .ok (rest, g2) =>
        .ok (wrapI32 ((wrapI32 (average_duration - new_length + 1)).tdiv 2
          + i * average_duration) :: rest, g2)
      | .error e => .error e

/-- The offsets of one record of duration `duration`:
`average_duration = duration / num_segments` followed by the offset loop.  The
division is undefined for a zero divisor and for `INT_MIN / -1`. -/
def segmentOffsets (c : Collab G Datum Sample) (train : Bool)
    (duration num_segments new_length : Int) (g : G) : Run (List Int × G) :=
  if num_segments = 0 ∨ (duration = -2147483648 ∧ num_segments = -1) then .error .undefined
  else
    offsetsLoop c train (duration.tdiv num_segments) new_length num_segments.toNat 0 g

/-- The method `VideoDataKDRFLayer::ShuffleVideos`: `lines_` is shuffled with
`prefetch_rng_1_`, `lines_duration_` with `prefetch_rng_2_`; `lines_dir_` is not
touched. -/
def ShuffleVideos (c : Collab G Datum Sample) (s : VideoDataKDRFLayer G Sample) :
    Run (VideoDataKDRFLayer G Sample) :=
  match s.prefetch_rng_1_, s.prefetch_rng_2_ with
  | some g1, some g2 =>
    let r1 := c.shuffleIdx g1 s.lines_.length
    let r2 := c.shuffleIdx g2 s.lines_duration_.length
    .ok { s with
      lines_ := permuteBy r1.1 s.lines_
      lines_duration_ := permuteBy r2.1 s.lines_duration_
      prefetch_rng_1_ := some r1.2
      prefetch_rng_2_ := some r2.2 }
  | _, _ => .error .undefined

/-- The block under `//next iteration` of the fill loop: increment `lines_id_`,
at `lines_size` reset it and reshuffle when `video_data_kdrf_param().shuffle()`. -/
def nextIteration (c : Collab G Datum Sample) (p : LayerParameter) (lines_size : Nat)
    (s : VideoDataKDRFLayer G Sample) : Run (VideoDataKDRFLayer G Sample) :=
  let s1 := { s with lines_id_ := s.lines_id_ + 1 }
  if s1.lines_id_ ≥ lines_size then
    let s2 := { s1 with lines_id_ := 0 }
    if p.video_data_kdrf_param.shuffle then ShuffleVideos c s2 else .ok s2
  else .ok s1

/-- The call of the decoder selected by `modality` on the record at the cursor. -/
def readAtCursor (c : Collab G Datum Sample) (p : LayerParameter)
    (s : VideoDataKDRFLayer G Sample) (offsets : List Int) : Run (Option Datum) :=
  let kp := p.video_data_kdrf_param
  match kp.modality with
  | .FLOW => do
    let l ← idx s.lines_ s.lines_id_
    let d ← idx s.lines_dir_ s.lines_id_
    pure (c.ReadSegmentFlowToDatum_KDRF l.1 d.1 d.2 l.2 offsets
      kp.new_height kp.new_width kp.new_length)
  | .RGB => do
    let l ← idx s.lines_ s.lines_id_
    pure (c.ReadSegmentRGBToDatum l.1 l.2 offsets
      kp.new_height kp.new_width kp.new_length true)

/-- One iteration of the fill loop of `InternalThreadEntry` for slot `item_id`.
A failed decode is the `continue`: the rest of the body is skipped.  The label
is stored in the `Dtype` blob, hence converted with `toDtype`. -/
def fillIteration (c : Collab G Datum Sample) (p : LayerParameter) (lines_size : Nat)
    (item_id : Nat) (s : VideoDataKDRFLayer G Sample) : Run (VideoDataKDRFLayer G Sample) :=
  let kp := p.video_data_kdrf_param
  if ¬ (lines_size > s.lines_id_) then .error .fatal
  else do
    let duration ← idx s.lines_duration_ s.lines_id_
    let r ← segmentOffsets c (decide (p.phase = .TRAIN)) duration kp.num_segments
      kp.new_length s.frame_prefetch_rng_
    let s1 := { s with frame_prefetch_rng_ := r.2 }
    let res ← readAtCursor c p s1 r.1
    match res with
    | none => pure s1
    | some datum => do
      let l ← idx s1.lines_ s1.lines_id_
      let s2 := { s1 with
        prefetch_data_ := s1.prefetch_data_.write item_id (c.Transform datum)
        prefetch_label_ := s1.prefetch_label_.write item_id (c.toDtype l.2) }
      nextIteration c p lines_size s2

/-- The fill loop from slot `item_id` with `n` iterations left. -/
def fillFrom (c : Collab G Datum Sample) (p : LayerParameter) (lines_size : Nat) :
    Nat → Nat → VideoDataKDRFLayer G Sample → Run (VideoDataKDRFLayer G Sample)
  | 0, _, s => .ok s
  | n + 1, item_id, s =>
    match fillIteration c p lines_size item_id s with
    | .ok s1 => fillFrom c p lines_size n (item_id + 1) s1
    | .error e => .error e

/-- The fill loop `for (int item_id = 0; item_id < batch_size; ++item_id)`. -/
def fillLoop (c : Collab G Datum Sample) (p : LayerParameter)
    (s : VideoDataKDRFLayer G Sample) : Run (VideoDataKDRFLayer G Sample) :=
  fillFrom c p s.lines_.length p.video_data_kdrf_param.batch_size.toNat 0 s

/-- The method `VideoDataKDRFLayer::InternalThreadEntry`. -/
def InternalThreadEntry (c : Collab G Datum Sample) (p : LayerParameter)
    (s : VideoDataKDRFLayer G Sample) : Run (VideoDataKDRFLayer G Sample) :=
  if s.prefetch_data_.count = 0 then .error .fatal else fillLoop c p s

/-- The method `VideoDataKDRFLayer::advance_cursor` (built with `USE_MPI`): the
same steps as the end of a fill iteration, but the reshuffle is decided by
`video_data_param().shuffle()`. -/
def VideoDataKDRFLayer.advance_cursor (c : Collab G Datum Sample) (p : LayerParameter)
    (s : VideoDataKDRFLayer G Sample) : Run (VideoDataKDRFLayer G Sample) :=
  let s1 := { s with lines_id_ := s.lines_id_ + 1 }
  if s1.lines_id_ ≥ s1.lines_.length then
    let s2 := { s1 with lines_id_ := 0 }
    if p.video_data_param_shuffle then ShuffleVideos c s2 else .ok s2
  else .ok s1

/-- Run `step` `n` times in a row. -/
def iterateRun {σ : Type} (step : σ → Run σ) : Nat → σ → Run σ
  | 0, s => .ok s
  | n + 1, s =>
    match step s with
    | .ok s1 => iterateRun step n s1
    | .error e => .error e

/-- The method `BaseDataLayer::OffsetCursor` for a `VideoDataKDRFLayer`;
`mpi` is `Caffe::parallel_mode() == Caffe::MPI`. -/
def OffsetCursor (c : Collab G Datum Sample) (p : LayerParameter) (mpi : Bool) (step : Int)
    (s : VideoDataKDRFLayer G Sample) : Run (VideoDataKDRFLayer G Sample) :=
  if mpi then iterateRun (VideoDataKDRFLayer.advance_cursor c p) step.toNat s else .ok s

/-- The method `VideoDataKDRFLayer::DataLayerSetUp` up to the shaping of the
prefetch blobs.  `infile` holds the well-formed lines the extraction loop
reads, `prefetch_seed` and `frame_seed` are the two `caffe_rng_rand()` values. -/
def DataLayerSetUp (c : Collab G Datum Sample) (p : LayerParameter)
    (infile : List InputLine) (prefetch_seed frame_seed : Nat) :
    Run (VideoDataKDRFLayer G Sample) :=
  let kp := p.video_data_kdrf_param
  let s0 : VideoDataKDRFLayer G Sample :=
    { lines_ := infile.map (fun l => (l.filename, l.label))
      lines_dir_ := infile.map (fun l => (l.dir_mvs, l.dir_tvl1))
      lines_duration_ := infile.map (fun l => l.length)
      lines_id_ := 0
      prefetch_rng_1_ := none
      prefetch_rng_2_ := none
      frame_prefetch_rng_ := c.mkRng frame_seed
      prefetch_data_ := { count := 0, cpu_data := fun _ => c.blank }
      prefetch_label_ := { count := 0, cpu_data := fun _ => 0 } }
  do
    let s1 ←
      if kp.shuffle then
        ShuffleVideos c { s0 with
          prefetch_rng_1_ := some (c.mkRng prefetch_seed)
          prefetch_rng_2_ := some (c.mkRng prefetch_seed) }
      else pure s0
    let s2 := { s1 with lines_id_ := 0 }
    let duration ← idx s2.lines_duration_ s2.lines_id_
    let r ← segmentOffsets c true duration kp.num_segments kp.new_length (c.mkRng frame_seed)
    let s3 := { s2 with frame_prefetch_rng_ := r.2 }
    let res ← readAtCursor c p s3 r.1
    match res with
    | none => .error .fatal
    | some datum =>
      let per :=
        if p.crop_size > 0 then c.channels datum * p.crop_size.toNat * p.crop_size.toNat
        else c.channels datum * c.height datum * c.width datum
      pure { s3 with
        prefetch_data_ := { count := kp.batch_size.toNat * per, cpu_data := fun _ => c.blank }
        prefetch_label_ := { count := kp.batch_size.toNat, cpu_data := fun _ => 0 } }

/-- The records found at the cursor over `n` consecutive steps of `step`,
starting in `s`. -/
def visited (step : VideoDataKDRFLayer G Sample → Run (VideoDataKDRFLayer G Sample)) :
    Nat → VideoDataKDRFLayer G Sample → Run (List (String × Int))
  | 0, _ => .ok []
  | n + 1, s =>
    match idx s.lines_ s.lines_id_, step s with
    | .ok r, .ok s1 =>
      match visited step n s1 with
      | .ok rest => .ok (r :: rest)
      | .error e => .error e
    | .error e, _ => .error e
    | _, .error e => .error e

end KDRF

/-- Values of `DataLayer::InputMode`. -/
inductive InputMode where
  | SEQUENCE
  | SHUFFLE
  deriving DecidableEq, Repr

/-- Modelled from the spec: `db::Cursor` (`caffe/util/db.hpp`) is not among the
source files.  The spec describes a "key/value store cursor" whose advance
"moves the position forward by one logical record"; it is modelled as the
position `pos` in a store of `size` records, valid while `pos < size`. -/
structure Cursor where
  size : Nat
  pos : Nat
  deriving DecidableEq, Repr

/-- Modelled from the spec: `db::Cursor::Next` (`cursor_->Next()`), one record
forward. -/
def Cursor.Next (k : Cursor) : Cursor := { k with pos := k.pos + 1 }

/-- Modelled from the spec: `db::Cursor::valid` (`cursor_->valid()`), whether the
cursor is on a record. -/
def Cursor.valid (k : Cursor) : Bool := decide (k.pos < k.size)

/-- Modelled from the spec: `db::Cursor::SeekToFirst` (`cursor_->SeekToFirst()`),
back to the first record. -/
def Cursor.SeekToFirst (k : Cursor) : Cursor := { k with pos := 0 }

/-- Cursor-related member variables of `DataLayer`; `shuffle_cursor_` is the
iterator into `shuffle_key_pool_`, kept as an index, and `caffe_rng` the global
generator the two-argument `shuffle(begin, end)` draws from. -/
structure DataLayer (G : Type) where
  cursor_ : Cursor
  cur_input_mode_ : InputMode
  shuffle_key_pool_ : List String
  shuffle_cursor_ : Nat
  caffe_rng : G

/-- The method `DataLayer::advance_cursor` (built with `USE_MPI`); `shuffle` is
`layer_param_.data_param().shuffle()`. -/
def DataLayer.advance_cursor {G : Type} (shuffleIdx : G → Nat → List Nat × G) (shuffle : Bool)
    (s : DataLayer G) : DataLayer G :=
  match s.cur_input_mode_ with
  | .SEQUENCE =>
    let s1 := { s with cursor_ := s.cursor_.Next }
    if ¬ (s1.cursor_.valid = true) then
      let s2 := { s1 with cursor_ := s1.cursor_.SeekToFirst }
      if shuffle = true then
        let r := shuffleIdx s2.caffe_rng s2.shuffle_key_pool_.length
        { s2 with
          cur_input_mode_ := .SHUFFLE
          shuffle_key_pool_ := permuteBy r.1 s2.shuffle_key_pool_
          shuffle_cursor_ := 0
          caffe_rng := r.2 }
      else s2
    else s1
  | .SHUFFLE => s

section Helpers

variable {G Datum Sample : Type}

/-- The cursor step shared by the end of a fill iteration and by
`advance_cursor`: `shuffle` is the flag the caller consults, `lines_size` the
size it compares the cursor with. -/
def cursorStep (c : Collab G Datum Sample) (shuffle : Bool) (lines_size : Nat)
    (s : VideoDataKDRFLayer G Sample) : Run (VideoDataKDRFLayer G Sample) :=
  let s1 := { s with lines_id_ := s.lines_id_ + 1 }
  if s1.lines_id_ ≥ lines_size then
    let s2 := { s1 with lines_id_ := 0 }
    if shuffle then ShuffleVideos c s2 else .ok s2
  else .ok s1

/-- Both shuffle generators exist whenever `shuffle` is set (what
`DataLayerSetUp` establishes). -/
def rngReady (shuffle : Bool) (s : VideoDataKDRFLayer G Sample) : Prop :=
  shuffle = true → s.prefetch_rng_1_.isSome = true ∧ s.prefetch_rng_2_.isSome = true

/-- Whether the fill-loop iteration that starts in state `s` reaches its decoder
call and that call succeeds: the duration at the cursor is read, the segment
offsets are computed from it, and the decoder selected by `modality`, handed
exactly those offsets, returns a datum. -/
def iterationDecodes (c : Collab G Datum Sample) (p : LayerParameter)
    (s : VideoDataKDRFLayer G Sample) : Bool :=
  match idx s.lines_duration_ s.lines_id_ with
  | .ok duration =>
    match segmentOffsets c (decide (p.phase = .TRAIN)) duration
        p.video_data_kdrf_param.num_segments p.video_data_kdrf_param.new_length
        s.frame_prefetch_rng_ with
    | .ok r =>
      match readAtCursor c p { s with frame_prefetch_rng_ := r.2 } r.1 with
      | .ok (some _) => true
      | _ => false
    | .error _ => false
  | .error _ => false

instance rngReadyDecidable (shuffle : Bool) (s : VideoDataKDRFLayer G Sample) :
    Decidable (rngReady shuffle s) := by
  unfold rngReady
  infer_instance

end Helpers

section Examples

/-- Collaborators used to evaluate the layer on concrete inputs: generators are
counters, a shuffle reverses the sequence, a decoder fails exactly on the file
`corrupt.avi` and otherwise returns the offsets it was handed, the transformer
is the identity and `Dtype` is `double` (labels are stored exactly). -/
def sampleCollab : Collab Nat (List Int) (List Int) where
  mkRng := fun seed => seed
  draw := fun g => (1103515245 * g + 12345, g + 1)
  shuffleIdx := fun g n => ((List.range n).reverse, g + 1)
  ReadSegmentFlowToDatum_KDRF := fun filename _ _ _ offsets _ _ _ =>
    if filename = "corrupt.avi" then none else some offsets
  ReadSegmentRGBToDatum := fun filename _ offsets _ _ _ _ =>
    if filename = "corrupt.avi" then none else some offsets
  Transform := fun d => d
  toDtype := fun x => x
  channels := fun _ => 3
  height := fun _ => 2
  width := fun _ => 2
  blank := []

/-- A layer configuration with `batch_size: 2`, `new_length: 5`,
`num_segments: 3`; `shuffle` is `video_data_kdrf_param.shuffle`, `hook` is
`video_data_param.shuffle`. -/
def sampleParam (shuffle hook : Bool) (ph : Phase) (m : Modality) : LayerParameter :=
  { video_data_kdrf_param :=
      { batch_size := 2, new_height := 2, new_width := 2, new_length := 5,
        num_segments := 3, shuffle := shuffle, modality := m }
    video_data_param_shuffle := hook
    crop_size := 0
    phase := ph }

/-- A record list whose second file cannot be decoded. -/
def linesWithCorrupt : List InputLine :=
  [ ⟨"mv_a", "tvl1_a", "a.avi", 30, 5⟩,
    ⟨"mv_x", "tvl1_x", "corrupt.avi", 40, 6⟩,
    ⟨"mv_c", "tvl1_c", "c.avi", 50, 7⟩ ]

/-- A record list of two decodable files. -/
def linesPair : List InputLine :=
  [ ⟨"mv_a", "tvl1_a", "a.avi", 30, 5⟩,
    ⟨"mv_c", "tvl1_c", "c.avi", 50, 7⟩ ]

/-- The record list `a.jpg 0`, `b.jpg 1`, `c.jpg 2` of the end-to-end scenario. -/
def linesThree : List InputLine :=
  [ ⟨"mv_a", "tvl1_a", "a.jpg", 30, 0⟩,
    ⟨"mv_b", "tvl1_b", "b.jpg", 30, 1⟩,
    ⟨"mv_c", "tvl1_c", "c.jpg", 30, 2⟩ ]

/-- A record list whose only clip has 6 frames: with `num_segments: 3` and
`new_length: 5` its `average_duration` is `2 < 5`. -/
def linesShort : List InputLine :=
  [ ⟨"mv_a", "tvl1_a", "a.avi", 6, 5⟩ ]

/-- The layer state built directly from a record list, cursor at `cursor`,
without shuffle generators. -/
def layerOf (infile : List InputLine) (cursor : Nat) : VideoDataKDRFLayer Nat (List Int) :=
  { lines_ := infile.map (fun l => (l.filename, l.label))
    lines_dir_ := infile.map (fun l => (l.dir_mvs, l.dir_tvl1))
    lines_duration_ := infile.map (fun l => l.length)
    lines_id_ := cursor
    prefetch_rng_1_ := none
    prefetch_rng_2_ := none
    frame_prefetch_rng_ := 0
    prefetch_data_ := { count := 24, cpu_data := fun _ => [] }
    prefetch_label_ := { count := 2, cpu_data := fun _ => 0 } }

/-- The state one run of the fill loop (configuration `batch_size: 2`, shuffle
disabled, `TEST` phase, `RGB`) leaves behind when started in `s`; `s` itself
when the run stops with a fault. -/
def layerAfterFill (s : VideoDataKDRFLayer Nat (List Int)) : VideoDataKDRFLayer Nat (List Int) :=
  match fillLoop sampleCollab (sampleParam false false .TEST .RGB) s with
  | .ok s1 => s1
  | .error _ => s

/-- What a run leaves behind: the three vectors, the cursor, and the label and
data slots `0` and `1` of the prefetch blobs. -/
def observe (r : Run (VideoDataKDRFLayer Nat (List Int))) :
    Run (List (String × Int) × List (String × String) × List Int × Nat × List Int ×
      List (List Int)) :=
  r.map (fun s => (s.lines_, s.lines_dir_, s.lines_duration_, s.lines_id_,
    (List.range 2).map s.prefetch_label_.cpu_data, (List.range 2).map s.prefetch_data_.cpu_data))

/-- A `DataLayer` in `SEQUENCE` mode on the last of three records. -/
def dataLayerSeq : DataLayer Nat :=
  { cursor_ := { size := 3, pos := 2 }
    cur_input_mode_ := .SEQUENCE
    shuffle_key_pool_ := ["k0", "k1", "k2"]
    shuffle_cursor_ := 0
    caffe_rng := 0 }

/-- A `DataLayer` in `SHUFFLE` mode over three keys. -/
def dataLayerShuf : DataLayer Nat :=
  { cursor_ := { size := 3, pos := 0 }
    cur_input_mode_ := .SHUFFLE
    shuffle_key_pool_ := ["k2", "k1", "k0"]
    shuffle_cursor_ := 1
    caffe_rng := 1 }

/-- The offset the spec's evaluation-mode formula assigns to segment `i`:
`window_start + (average_duration - clip_length)/2`. -/
def specMidpointOffset (D S L : Int) (i : Nat) : Int :=
  (i : Int) * D.tdiv S + (D.tdiv S - L).tdiv 2

end Examples

section LaterHelpers

variable {G Datum Sample : Type}

/-- The state `n` calls of `DataLayer::advance_cursor` in a row lead to (the
loop of `OffsetCursor(n)`). -/
def DataLayer.advanceTimes (shuffleIdx : G → Nat → List Nat × G) (shuffle : Bool) :
    Nat → DataLayer G → DataLayer G
  | 0, s => s
  | n + 1, s =>
    DataLayer.advanceTimes shuffleIdx shuffle n (DataLayer.advance_cursor shuffleIdx shuffle s)

/-- Index by index, `lines_` and `lines_duration_` come from one and the same
line of `infile`: some list `ls` of lines of `infile` gives `lines_` by its
(filename, label) pairs and `lines_duration_` by its frame counts. -/
def durationsAligned (infile : List InputLine) (s : VideoDataKDRFLayer G Sample) : Prop :=
  ∃ ls : List InputLine, (∀ l ∈ ls, l ∈ infile) ∧
    s.lines_ = ls.map (fun l => (l.filename, l.label)) ∧
    s.lines_duration_ = ls.map (fun l => l.length)

end LaterHelpers

section OffsetProofs
variable {G Datum Sample : Type}

theorem toU32_of_range (x : Int) (h0 : 0 ≤ x) (h1 : x < 4294967296) : toU32 x = x.toNat := by
  unfold toU32
  rw [Int.emod_eq_of_lt h0 h1]

theorem toI32_of_small (u : Nat) (h : u < 2147483648) : toI32 u = (u : Int) := by
  unfold toI32
  have h1 : u % 4294967296 = u := Nat.mod_eq_of_lt (by omega)
  rw [h1, if_pos h]

theorem wrapI32_of_range (x : Int) (h0 : -2147483648 ≤ x) (h1 : x < 2147483648) :
    wrapI32 x = x := by
  unfold wrapI32 toI32 toU32
  split <;> omega

theorem toU32_of_negative (x : Int) (h0 : -2147483648 ≤ x) (h1 : x < 0) :
    toU32 (wrapI32 x) ≠ 0 := by
  rw [wrapI32_of_range x h0 (by omega)]
  unfold toU32
  omega

theorem train_offset_range (r : Nat) (a L : Int) (h1 : L ≤ a) (h2 : a < 2147483648) (hL : 1 ≤ L) :
    toU32 (wrapI32 (a - L + 1)) ≠ 0 ∧
    0 ≤ toI32 ((r % 4294967296) % toU32 (wrapI32 (a - L + 1))) ∧
    toI32 ((r % 4294967296) % toU32 (wrapI32 (a - L + 1))) ≤ a - L := by
  rw [wrapI32_of_range _ (by omega) (by omega)]
  have hm : toU32 (a - L + 1) = (a - L + 1).toNat := toU32_of_range _ (by omega) (by omega)
  have hpos : 0 < (a - L + 1).toNat := by omega
  have hlt : (r % 4294967296) % (a - L + 1).toNat < (a - L + 1).toNat := Nat.mod_lt _ hpos
  rw [hm]
  refine ⟨by omega, ?_, ?_⟩
  · rw [toI32_of_small _ (by omega)]; omega
  · rw [toI32_of_small _ (by omega)]; omega

theorem eval_offset_range (a L : Int) (h1 : L ≤ a) :
    0 ≤ (a - L + 1).tdiv 2 ∧ (a - L + 1).tdiv 2 ≤ a - L := by
  rw [Int.tdiv_eq_ediv (by omega) (by omega)]
  omega

theorem tdiv_two_nonpos (x : Int) (h : x ≤ 0) : x.tdiv 2 ≤ 0 := by
  have h1 := Int.tdiv_nonneg (a := -x) (b := 2) (by omega) (by omega)
  rw [Int.neg_tdiv] at h1
  omega

theorem tdiv_two_bounds (x : Int) (h0 : -2147483648 ≤ x) (h1 : x < 2147483648) :
    -1073741824 ≤ x.tdiv 2 ∧ x.tdiv 2 ≤ 1073741823 := by
  by_cases hx : 0 ≤ x
  · rw [Int.tdiv_eq_ediv hx (by omega)]
    omega
  · have h2 : (-x).tdiv 2 = (-x) / 2 := Int.tdiv_eq_ediv (by omega) (by omega)
    rw [Int.neg_tdiv] at h2
    omega

theorem offsetsLoop_range (c : Collab G Datum Sample) (train : Bool) (a L : Int)
    (h1 : L ≤ a) (h2 : a < 2147483648) (hL : 1 ≤ L) :
    ∀ (n : Nat) (i : Int) (g : G), 0 ≤ i → (i + n) * a < 2147483648 →
      ∃ offs g2, offsetsLoop c train a L n i g = .ok (offs, g2) ∧ offs.length = n ∧
        ∀ o ∈ offs, i * a ≤ o ∧ o ≤ (i + n) * a - L := by
  intro n
  induction n with
  | zero => intro i g _ _; exact ⟨[], g, rfl, rfl, by simp⟩
  | succ n ih =>
    intro i g hi hb
    have ha : 0 ≤ a := by omega
    have hia : i * a ≤ (i + 1) * a := by nlinarith
    have hn : (0 : Int) ≤ (n : Int) := Int.ofNat_nonneg n
    have hb1 : (i + 1 + (n : Int)) * a < 2147483648 := by
      have : (i + 1 + (n : Int)) * a = (i + ((n + 1 : Nat) : Int)) * a := by push_cast; ring
      rw [this]; exact hb
    have hi0 : 0 ≤ i * a := Int.mul_nonneg hi ha
    have hi1 : (i + 1) * a ≤ (i + 1 + (n : Int)) * a := by nlinarith
    cases train with
    | true =>
      obtain ⟨offs, g2, hrun, hlen, hrange⟩ := ih (i + 1) (c.draw g).2 (by omega) hb1
      obtain ⟨hm, hlo, hhi⟩ := train_offset_range (c.draw g).1 a L h1 h2 hL
      have hw : wrapI32 (toI32 (((c.draw g).1 % 4294967296) %
          toU32 (wrapI32 (a - L + 1))) + i * a) =
          toI32 (((c.draw g).1 % 4294967296) % toU32 (wrapI32 (a - L + 1))) + i * a :=
        wrapI32_of_range _ (by omega) (by nlinarith)
      refine ⟨(toI32 (((c.draw g).1 % 4294967296) % toU32 (wrapI32 (a - L + 1))) + i * a)
        :: offs, g2, ?_, by simp [hlen], ?_⟩
      · simp [offsetsLoop, hm, hrun, hw]
      · intro o ho
        rcases List.mem_cons.mp ho with rfl | ho
        · constructor
          · omega
          · push_cast; nlinarith
        · obtain ⟨hl, hh⟩ := hrange o ho
          constructor
          · omega
          · push_cast; nlinarith
    | false =>
      obtain ⟨offs, g2, hrun, hlen, hrange⟩ := ih (i + 1) g (by omega) hb1
      obtain ⟨hlo, hhi⟩ := eval_offset_range a L h1
      have hw0 : wrapI32 (a - L + 1) = a - L + 1 := wrapI32_of_range _ (by omega) (by omega)
      have hw : wrapI32 ((a - L + 1).tdiv 2 + i * a) = (a - L + 1).tdiv 2 + i * a :=
        wrapI32_of_range _ (by omega) (by nlinarith)
      refine ⟨((a - L + 1).tdiv 2 + i * a) :: offs, g2, ?_, by simp [hlen], ?_⟩
      · simp [offsetsLoop, hrun, hw0, hw]
      · intro o ho
        rcases List.mem_cons.mp ho with rfl | ho
        · constructor
          · omega
          · push_cast; nlinarith
        · obtain ⟨hl, hh⟩ := hrange o ho
          constructor
          · omega
          · push_cast; nlinarith

/-- C1. Video segment sampler range: for an `int` duration `D`, `S ≥ 1`, `L ≥ 1` with
`D / S ≥ L`, whatever the frame generator draws, the offset loop of the fill
loop returns `S` offsets and each of them lies in `[0, D - L]`, in the training
branch (`train = true`) and in the evaluation branch (`train = false`) alike. -/
theorem segmentOffsets_in_range (c : Collab G Datum Sample) (train : Bool) (D S L : Int) (g : G)
    (hD : D < 2147483648) (hS : 1 ≤ S) (hL : 1 ≤ L) (hDL : L ≤ D.tdiv S) :
    ∃ offs g2, segmentOffsets c train D S L g = .ok (offs, g2) ∧ offs.length = S.toNat ∧
      ∀ o ∈ offs, 0 ≤ o ∧ o ≤ D - L := by
  have hD0 : 0 ≤ D := by
    by_contra hneg
    have h := Int.tdiv_nonneg (a := -D) (b := S) (by omega) (by omega)
    rw [Int.neg_tdiv] at h
    omega
  have hdiv : D.tdiv S = D / S := Int.tdiv_eq_ediv hD0 (by omega)
  have hmul : S * (D / S) ≤ D := Int.mul_ediv_self_le (by omega)
  have havg : D / S ≤ D := Int.ediv_le_self _ hD0
  have hcast : ((S.toNat : Nat) : Int) = S := Int.toNat_of_nonneg (by omega)
  obtain ⟨offs, g2, hrun, hlen, hrange⟩ :=
    offsetsLoop_range c train (D.tdiv S) L hDL (by omega) hL S.toNat 0 g (le_refl _)
      (by rw [hcast, hdiv, Int.zero_add]; omega)
  refine ⟨offs, g2, ?_, hlen, ?_⟩
  · unfold segmentOffsets
    rw [if_neg (by omega)]
    exact hrun
  · intro o ho
    obtain ⟨hl, hh⟩ := hrange o ho
    rw [hcast, hdiv] at hh
    constructor
    · simpa using hl
    · have : (0 + S) * (D / S) = S * (D / S) := by ring
      omega

/-- Witness for C1: a clip of 30 frames, 3 segments, clip length 5, training branch. -/
theorem segmentOffsets_in_range_witness :
    ((30 : Int) < 2147483648 ∧ (1 : Int) ≤ 3 ∧ (1 : Int) ≤ 5 ∧ (5 : Int) ≤ Int.tdiv 30 3) ∧
    ∃ offs g2, segmentOffsets sampleCollab true 30 3 5 0 = .ok (offs, g2) ∧
      offs.length = (3 : Int).toNat ∧ ∀ o ∈ offs, 0 ≤ o ∧ o ≤ 30 - 5 :=
  ⟨by decide,
    segmentOffsets_in_range sampleCollab true 30 3 5 0 (by decide) (by decide) (by decide)
      (by decide)⟩

end OffsetProofs
section MoreProofs

variable {G Datum Sample : Type}

theorem offsetsLoop_eval (c : Collab G Datum Sample) (a L : Int) :
    ∀ (n : Nat) (i : Int) (g : G), offsetsLoop c false a L n i g =
      .ok ((List.range n).map (fun k : Nat =>
        wrapI32 ((wrapI32 (a - L + 1)).tdiv 2 + (i + (k : Int)) * a)), g) := by
  intro n
  induction n with
  | zero => intro i g; rfl
  | succ n ih =>
    intro i g
    simp only [offsetsLoop, ih (i + 1) g, List.range_succ_eq_map, List.map_cons, List.map_map]
    simp only [Bool.false_eq_true, if_false, Nat.cast_zero, add_zero]
    congr 3
    apply List.map_congr_left
    intro k _
    simp only [Function.comp, Nat.cast_succ]
    congr 2
    ring

theorem segmentOffsets_eval (c : Collab G Datum Sample) (D S L : Int) (g : G) (hS : 1 ≤ S) :
    segmentOffsets c false D S L g =
      .ok ((List.range S.toNat).map (fun k : Nat =>
        wrapI32 ((wrapI32 (D.tdiv S - L + 1)).tdiv 2 + (0 + (k : Int)) * D.tdiv S)), g) := by
  unfold segmentOffsets
  rw [if_neg (by omega)]
  exact offsetsLoop_eval c _ _ _ _ _

theorem segmentOffsets_eval_exact (c : Collab G Datum Sample) (D S L : Int) (g : G)
    (hS : 1 ≤ S) (hD0 : 0 ≤ D) (hD : D < 2147483648)
    (hlo : -2147483648 ≤ D.tdiv S - L + 1) (hup : D.tdiv S - L + 1 < 2147483648)
    (hhi : (D.tdiv S - L + 1).tdiv 2 ≤ D.tdiv S) :
    ∃ offs, segmentOffsets c false D S L g = .ok (offs, g) ∧ offs.length = S.toNat ∧
      ∀ i : Nat, i < S.toNat →
        offs.get? i = some ((i : Int) * D.tdiv S + (D.tdiv S - L + 1).tdiv 2) := by
  refine ⟨_, segmentOffsets_eval c D S L g hS, by simp, ?_⟩
  intro i hi
  have hdiv : D.tdiv S = D / S := Int.tdiv_eq_ediv hD0 (by omega)
  have hmul : S * (D / S) ≤ D := Int.mul_ediv_self_le (by omega)
  have havg : 0 ≤ D / S := Int.ediv_nonneg hD0 (by omega)
  have hiS : (i : Int) + 1 ≤ S := by omega
  have hprod : (i : Int) * (D / S) + D / S ≤ S * (D / S) := by nlinarith
  have hprod0 : 0 ≤ (i : Int) * (D / S) := Int.mul_nonneg (Int.ofNat_nonneg i) havg
  obtain ⟨hb1, hb2⟩ := tdiv_two_bounds _ hlo hup
  rw [hdiv] at hhi hb1 hb2 hlo hup ⊢
  simp only [List.get?_eq_getElem?, List.getElem?_map, List.getElem?_range hi, Option.map_some',
    Int.zero_add]
  rw [wrapI32_of_range (D / S - L + 1) hlo hup, wrapI32_of_range _ (by omega) (by omega)]
  congr 1
  ring

theorem offsetsLoop_train_zero (c : Collab G Datum Sample) (a L : Int) (n : Nat) (i : Int)
    (g : G) (hm : toU32 (wrapI32 (a - L + 1)) = 0) :
    offsetsLoop c true a L (n + 1) i g = .error .undefined := by
  simp [offsetsLoop, hm]

theorem offsetsLoop_train_ok (c : Collab G Datum Sample) (a L : Int)
    (hm : toU32 (wrapI32 (a - L + 1)) ≠ 0) :
    ∀ (n : Nat) (i : Int) (g : G),
      ∃ offs g2, offsetsLoop c true a L n i g = .ok (offs, g2) ∧ offs.length = n := by
  intro n
  induction n with
  | zero => intro i g; exact ⟨[], g, rfl, rfl⟩
  | succ n ih =>
    intro i g
    obtain ⟨offs, g2, hrun, hlen⟩ := ih (i + 1) (c.draw g).2
    simp only [offsetsLoop, if_true, if_neg hm, hrun]
    exact ⟨_, _, rfl, by simp [hlen]⟩

theorem offsetsLoop_not_fatal (c : Collab G Datum Sample) (train : Bool) (a L : Int) :
    ∀ (n : Nat) (i : Int) (g : G), offsetsLoop c train a L n i g ≠ .error .fatal := by
  intro n
  induction n with
  | zero => intro i g h; cases h
  | succ n ih =>
    intro i g h
    cases train with
    | true =>
      simp only [offsetsLoop, if_true] at h
      by_cases hm : toU32 (wrapI32 (a - L + 1)) = 0
      · rw [if_pos hm] at h; cases h
      · rw [if_neg hm] at h
        cases hrec : offsetsLoop c true a L n (i + 1) (c.draw g).2 with
        | error e =>
          rw [hrec] at h
          simp only [Except.error.injEq] at h
          exact ih _ _ (h ▸ hrec)
        | ok v => rw [hrec] at h; cases h
    | false =>
      simp only [offsetsLoop, Bool.false_eq_true, if_false] at h
      cases hrec : offsetsLoop c false a L n (i + 1) g with
      | error e =>
        rw [hrec] at h
        simp only [Except.error.injEq] at h
        exact ih _ _ (h ▸ hrec)
      | ok v => rw [hrec] at h; cases h

theorem segmentOffsets_not_fatal (c : Collab G Datum Sample) (train : Bool) (D S L : Int)
    (g : G) : segmentOffsets c train D S L g ≠ .error .fatal := by
  unfold segmentOffsets
  split
  · intro h; cases h
  · exact offsetsLoop_not_fatal c train _ _ _ _ _

end MoreProofs

section CursorProofs

variable {G Datum Sample : Type}

theorem filterMap_get?_range {α : Type} (xs : List α) :
    (List.range xs.length).filterMap (fun j => xs.get? j) = xs := by
  induction xs with
  | nil => rfl
  | cons x xs ih =>
    rw [List.length_cons, List.range_succ_eq_map, List.filterMap_cons]
    simp only [List.get?_cons_zero, List.filterMap_map]
    congr 1

theorem permuteBy_perm {α : Type} (ix : List Nat) (xs : List α)
    (h : ix.Perm (List.range xs.length)) : (permuteBy ix xs).Perm xs := by
  have h1 := List.Perm.filterMap (fun j => xs.get? j) h
  rw [filterMap_get?_range] at h1
  exact h1

theorem ShuffleVideos_perm (c : Collab G Datum Sample)
    (hperm : ∀ g n, (c.shuffleIdx g n).1.Perm (List.range n))
    (s : VideoDataKDRFLayer G Sample)
    (h1 : s.prefetch_rng_1_.isSome = true) (h2 : s.prefetch_rng_2_.isSome = true) :
    ∃ s1, ShuffleVideos c s = .ok s1 ∧ s1.lines_id_ = s.lines_id_ ∧ s1.lines_.Perm s.lines_ ∧
      s1.prefetch_rng_1_.isSome = true ∧ s1.prefetch_rng_2_.isSome = true := by
  cases hg1 : s.prefetch_rng_1_ with
  | none => rw [hg1] at h1; cases h1
  | some g1 =>
    cases hg2 : s.prefetch_rng_2_ with
    | none => rw [hg2] at h2; cases h2
    | some g2 =>
      unfold ShuffleVideos
      rw [hg1, hg2]
      exact ⟨_, rfl, rfl, permuteBy_perm _ _ (hperm g1 _), rfl, rfl⟩

theorem cursorStep_inside (c : Collab G Datum Sample) (sh : Bool) (K : Nat)
    (s : VideoDataKDRFLayer G Sample) (h : s.lines_id_ + 1 < K) :
    cursorStep c sh K s = .ok { s with lines_id_ := s.lines_id_ + 1 } := by
  unfold cursorStep
  simp only [ge_iff_le]
  rw [if_neg (by omega)]

theorem cursorStep_wrap (c : Collab G Datum Sample) (sh : Bool) (K : Nat)
    (hperm : ∀ g n, (c.shuffleIdx g n).1.Perm (List.range n))
    (s : VideoDataKDRFLayer G Sample) (h : K ≤ s.lines_id_ + 1) (hr : rngReady sh s) :
    ∃ s1, cursorStep c sh K s = .ok s1 ∧ s1.lines_id_ = 0 ∧ s1.lines_.Perm s.lines_ ∧
      rngReady sh s1 := by
  unfold cursorStep
  simp only [ge_iff_le]
  rw [if_pos h]
  cases sh with
  | false =>
    refine ⟨_, rfl, rfl, List.Perm.refl _, ?_⟩
    intro hh; cases hh
  | true =>
    obtain ⟨h1, h2⟩ := hr rfl
    obtain ⟨s1, hrun, hid, hp, hr1, hr2⟩ :=
      ShuffleVideos_perm c hperm { s with lines_id_ := 0 } h1 h2
    exact ⟨s1, by simpa using hrun, hid, hp, fun _ => ⟨hr1, hr2⟩⟩

theorem iterateRun_add {σ : Type} (step : σ → Run σ) (a b : Nat) (s s1 : σ)
    (h : iterateRun step a s = .ok s1) :
    iterateRun step (a + b) s = iterateRun step b s1 := by
  induction a generalizing s with
  | zero =>
    simp only [iterateRun] at h
    cases h
    simp
  | succ a ih =>
    rw [Nat.succ_add]
    simp only [iterateRun] at h ⊢
    cases hs : step s with
    | error e => rw [hs] at h; cases h
    | ok s2 =>
      rw [hs] at h
      simp only at h ⊢
      exact ih s2 h

theorem visited_inside (c : Collab G Datum Sample) (sh : Bool) (K : Nat)
    (hperm : ∀ g n, (c.shuffleIdx g n).1.Perm (List.range n))
    (step : VideoDataKDRFLayer G Sample → Run (VideoDataKDRFLayer G Sample))
    (hstep : ∀ s, s.lines_.length = K → step s = cursorStep c sh K s) :
    ∀ (n : Nat) (s : VideoDataKDRFLayer G Sample), s.lines_.length = K → rngReady sh s →
      s.lines_id_ + n ≤ K →
      visited step n s = .ok ((s.lines_.drop s.lines_id_).take n) := by
  intro n
  induction n with
  | zero => intro s _ _ _; simp [visited]
  | succ n ih =>
    intro s hlen hr hn
    have hlt : s.lines_id_ < s.lines_.length := by omega
    have hidx : idx s.lines_ s.lines_id_ = .ok (s.lines_.get ⟨s.lines_id_, hlt⟩) := by
      unfold idx
      rw [List.get?_eq_get hlt]
    have hdrop : s.lines_.drop s.lines_id_ =
        s.lines_.get ⟨s.lines_id_, hlt⟩ :: s.lines_.drop (s.lines_id_ + 1) := by
      simp
    rw [hdrop, List.take_succ_cons]
    by_cases hin : s.lines_id_ + 1 < K
    · have hs := cursorStep_inside c sh K s hin
      have hv := ih { s with lines_id_ := s.lines_id_ + 1 } hlen hr (by simp only; omega)
      simp only [visited, hidx, hstep s hlen, hs, hv]
    · obtain ⟨s1, hs, _, _, _⟩ := cursorStep_wrap c sh K hperm s (by omega) hr
      have hn0 : n = 0 := by omega
      subst hn0
      simp [visited, hidx, hstep s hlen, hs]

theorem iterateRun_epoch (c : Collab G Datum Sample) (sh : Bool) (K : Nat)
    (hperm : ∀ g n, (c.shuffleIdx g n).1.Perm (List.range n))
    (step : VideoDataKDRFLayer G Sample → Run (VideoDataKDRFLayer G Sample))
    (hstep : ∀ s, s.lines_.length = K → step s = cursorStep c sh K s) :
    ∀ (n : Nat) (s : VideoDataKDRFLayer G Sample), s.lines_.length = K → rngReady sh s →
      s.lines_id_ + (n + 1) = K →
      ∃ s1, iterateRun step (n + 1) s = .ok s1 ∧ s1.lines_id_ = 0 ∧
        s1.lines_.Perm s.lines_ ∧ rngReady sh s1 := by
  intro n
  induction n with
  | zero =>
    intro s hlen hr hn
    obtain ⟨s1, hs, h0, hp, hr1⟩ := cursorStep_wrap c sh K hperm s (by omega) hr
    exact ⟨s1, by simp [iterateRun, hstep s hlen, hs], h0, hp, hr1⟩
  | succ n ih =>
    intro s hlen hr hn
    have hs := cursorStep_inside c sh K s (by omega)
    obtain ⟨s1, hrun, h0, hp, hr1⟩ :=
      ih { s with lines_id_ := s.lines_id_ + 1 } hlen hr (by simp only; omega)
    refine ⟨s1, ?_, h0, hp, hr1⟩
    rw [iterateRun, hstep s hlen, hs]
    exact hrun

theorem epochs_generic (c : Collab G Datum Sample) (sh : Bool) (K : Nat) (hK : 1 ≤ K)
    (hperm : ∀ g n, (c.shuffleIdx g n).1.Perm (List.range n))
    (step : VideoDataKDRFLayer G Sample → Run (VideoDataKDRFLayer G Sample))
    (hstep : ∀ s, s.lines_.length = K → step s = cursorStep c sh K s)
    (s0 : VideoDataKDRFLayer G Sample) (hlen : s0.lines_.length = K) (h0 : s0.lines_id_ = 0)
    (hr : rngReady sh s0) (e : Nat) :
    ∃ se recs, iterateRun step (e * K) s0 = .ok se ∧ se.lines_id_ = 0 ∧
      visited step K se = .ok recs ∧ recs.Perm s0.lines_ := by
  have key : ∃ se, iterateRun step (e * K) s0 = .ok se ∧ se.lines_id_ = 0 ∧
      se.lines_.Perm s0.lines_ ∧ rngReady sh se := by
    induction e with
    | zero => exact ⟨s0, by simp [iterateRun], h0, List.Perm.refl _, hr⟩
    | succ e ih =>
      obtain ⟨se, hrun, hid, hp, hre⟩ := ih
      have hl : se.lines_.length = K := by rw [hp.length_eq, hlen]
      obtain ⟨k, hk⟩ : ∃ k, K = k + 1 := ⟨K - 1, by omega⟩
      obtain ⟨s1, hrun1, hid1, hp1, hr1⟩ :=
        iterateRun_epoch c sh K hperm step hstep k se hl hre (by omega)
      refine ⟨s1, ?_, hid1, hp1.trans hp, hr1⟩
      rw [Nat.succ_mul, iterateRun_add step (e * K) K s0 se hrun, hk]
      exact hrun1
  obtain ⟨se, hrun, hid, hp, hre⟩ := key
  have hl : se.lines_.length = K := by rw [hp.length_eq, hlen]
  refine ⟨se, se.lines_, hrun, hid, ?_, hp⟩
  have hv := visited_inside c sh K hperm step hstep K se hl hre (by omega)
  rw [hv, hid, List.drop_zero, ← hl, List.take_length]

/-- The advance at the end of a fill iteration gives epoch coverage: on a layer
with `K ≥ 1` records and cursor `0` whose shuffle generators exist when
`video_data_kdrf_param.shuffle` is set (what `DataLayerSetUp` leaves), whatever
permutation each reshuffle applies, for every epoch `e` the first `e * K`
advance steps succeed with the cursor back at `0`, and the records found at the
cursor over the next `K` steps are a permutation of the record list. -/
theorem fill_advance_epoch_coverage (c : Collab G Datum Sample) (p : LayerParameter)
    (s0 : VideoDataKDRFLayer G Sample) (K : Nat)
    (hlen : s0.lines_.length = K) (hK : 1 ≤ K) (h0 : s0.lines_id_ = 0)
    (hperm : ∀ g n, (c.shuffleIdx g n).1.Perm (List.range n))
    (hfill : rngReady p.video_data_kdrf_param.shuffle s0) (e : Nat) :
    ∃ se recs, iterateRun (nextIteration c p K) (e * K) s0 = .ok se ∧ se.lines_id_ = 0 ∧
      visited (nextIteration c p K) K se = .ok recs ∧ recs.Perm s0.lines_ :=
  epochs_generic c p.video_data_kdrf_param.shuffle K hK hperm (nextIteration c p K)
    (fun _ _ => rfl) s0 hlen h0 hfill e

end CursorProofs

section FillProofs

variable {G Datum Sample : Type}

theorem idx_of_get? {α : Type} (xs : List α) (i : Nat) (x : α) (h : xs.get? i = some x) :
    idx xs i = .ok x := by
  unfold idx
  rw [h]

theorem iterationDecodes_spec (c : Collab G Datum Sample) (p : LayerParameter)
    (s : VideoDataKDRFLayer G Sample) (h : iterationDecodes c p s = true) :
    ∃ duration r datum, idx s.lines_duration_ s.lines_id_ = .ok duration ∧
      segmentOffsets c (decide (p.phase = .TRAIN)) duration
        p.video_data_kdrf_param.num_segments p.video_data_kdrf_param.new_length
        s.frame_prefetch_rng_ = .ok r ∧
      readAtCursor c p { s with frame_prefetch_rng_ := r.2 } r.1 = .ok (some datum) := by
  unfold iterationDecodes at h
  cases h1 : idx s.lines_duration_ s.lines_id_ with
  | error e => rw [h1] at h; cases h
  | ok duration =>
    rw [h1] at h
    simp only at h
    cases h2 : segmentOffsets c (decide (p.phase = .TRAIN)) duration
        p.video_data_kdrf_param.num_segments p.video_data_kdrf_param.new_length
        s.frame_prefetch_rng_ with
    | error e => rw [h2] at h; cases h
    | ok r =>
      rw [h2] at h
      simp only at h
      cases h3 : readAtCursor c p { s with frame_prefetch_rng_ := r.2 } r.1 with
      | error e => rw [h3] at h; cases h
      | ok res =>
        cases res with
        | none => rw [h3] at h; cases h
        | some datum =>
          exact ⟨duration, r, datum, rfl, h2, h3⟩

theorem fillIteration_sequential (c : Collab G Datum Sample) (p : LayerParameter) (K item : Nat)
    (s : VideoDataKDRFLayer G Sample)
    (hK : s.lines_.length = K) (hc : s.lines_id_ < K)
    (hsh : p.video_data_kdrf_param.shuffle = false)
    (hdec : iterationDecodes c p s = true) :
    ∃ s1 l, fillIteration c p K item s = .ok s1 ∧ s.lines_.get? s.lines_id_ = some l ∧
      s1.lines_ = s.lines_ ∧ s1.lines_dir_ = s.lines_dir_ ∧
      s1.lines_duration_ = s.lines_duration_ ∧ s1.lines_id_ = (s.lines_id_ + 1) % K ∧
      s1.prefetch_label_.cpu_data =
        fun j => if j = item then c.toDtype l.2 else s.prefetch_label_.cpu_data j := by
  have hl : s.lines_.get? s.lines_id_ = some (s.lines_.get ⟨s.lines_id_, by omega⟩) :=
    List.get?_eq_get _
  obtain ⟨duration, r, datum, hu, hr, hread⟩ := iterationDecodes_spec c p s hdec
  unfold fillIteration
  simp only [gt_iff_lt, not_lt, if_neg (Nat.not_le.mpr hc), hu, bind, Except.bind]
  rw [hr]
  simp only [hread, idx_of_get? _ _ _ hl, nextIteration, ge_iff_le]
  by_cases hw : s.lines_id_ + 1 < K
  · rw [if_neg (Nat.not_le.mpr hw)]
    exact ⟨_, _, rfl, hl, rfl, rfl, rfl, (Nat.mod_eq_of_lt hw).symm, rfl⟩
  · have hKe : s.lines_id_ + 1 = K := by omega
    rw [if_pos (Nat.not_lt.mp hw), hsh]
    exact ⟨_, _, rfl, hl, rfl, rfl, rfl, by rw [hKe, Nat.mod_self], rfl⟩

theorem fillFrom_sequential (c : Collab G Datum Sample) (p : LayerParameter) (K : Nat)
    (hsh : p.video_data_kdrf_param.shuffle = false) :
    ∀ (n item : Nat) (s : VideoDataKDRFLayer G Sample),
      s.lines_.length = K → s.lines_id_ < K →
      (∀ i, i < n → ∀ si, fillFrom c p K i item s = .ok si → iterationDecodes c p si = true) →
      ∃ s1, fillFrom c p K n item s = .ok s1 ∧ s1.lines_ = s.lines_ ∧
        s1.lines_dir_ = s.lines_dir_ ∧ s1.lines_duration_ = s.lines_duration_ ∧
        s1.lines_id_ = (s.lines_id_ + n) % K ∧
        (∀ i, i < n → ∃ l, s.lines_.get? ((s.lines_id_ + i) % K) = some l ∧
          s1.prefetch_label_.cpu_data (item + i) = c.toDtype l.2) ∧
        (∀ j, j < item → s1.prefetch_label_.cpu_data j = s.prefetch_label_.cpu_data j) := by
  intro n
  induction n with
  | zero =>
    intro item s _ hc _
    refine ⟨s, rfl, rfl, rfl, rfl, ?_, ?_, ?_⟩
    · rw [Nat.add_zero, Nat.mod_eq_of_lt hc]
    · intro i hi; omega
    · intro j _; rfl
  | succ n ih =>
    intro item s hK hc hdec
    obtain ⟨s1, l, hrun, hl, e1, e2, e3, hid, hlab⟩ :=
      fillIteration_sequential c p K item s hK hc hsh (hdec 0 (by omega) s rfl)
    have hc1 : s1.lines_id_ < K := by
      rw [hid]; exact Nat.mod_lt _ (by omega)
    have hdec1 : ∀ i, i < n → ∀ si, fillFrom c p K i (item + 1) s1 = .ok si →
        iterationDecodes c p si = true := by
      intro i hi si hsi
      refine hdec (i + 1) (by omega) si ?_
      simp only [fillFrom, hrun]
      exact hsi
    obtain ⟨s2, hrun2, f1, f2, f3, hid2, hlab2, hold2⟩ :=
      ih (item + 1) s1 (by rw [e1, hK]) hc1 hdec1
    refine ⟨s2, ?_, f1.trans e1, f2.trans e2, f3.trans e3, ?_, ?_, ?_⟩
    · simp only [fillFrom, hrun]
      exact hrun2
    · rw [hid2, hid, Nat.mod_add_mod]
      congr 1; omega
    · intro i hi
      cases i with
      | zero =>
        refine ⟨l, ?_, ?_⟩
        · rw [Nat.add_zero, Nat.mod_eq_of_lt hc]; exact hl
        · rw [Nat.add_zero, hold2 item (by omega), hlab]
          simp
      | succ i =>
        obtain ⟨l2, hl2, hv⟩ := hlab2 i (by omega)
        refine ⟨l2, ?_, ?_⟩
        · rw [← hl2, e1, hid, Nat.mod_add_mod]
          congr 2; omega
        · rw [← hv]; congr 1; omega
    · intro j hj
      rw [hold2 j (by omega), hlab]
      simp only
      rw [if_neg (by omega)]

/-- C4. Sequential wrap-around without reshuffle: with `shuffle` disabled, on a layer
with `K` records and cursor `c < K`, if every decode of the run succeeds (at each
state the loop reaches before one of its `B` iterations, the decoder call on the
offsets computed there returns a datum), one run of the fill loop with
`batch_size = B` succeeds, writes into label slot `i` the label of record
`(c + i) mod K` (converted to `Dtype`) for every `i < B`, leaves `lines_`,
`lines_dir_` and `lines_duration_` unchanged and leaves the cursor at
`(c + B) mod K`. -/
theorem fill_sequential_wraparound (c : Collab G Datum Sample) (p : LayerParameter)
    (s : VideoDataKDRFLayer G Sample) (K B : Nat)
    (hK : s.lines_.length = K) (hc : s.lines_id_ < K)
    (hB : p.video_data_kdrf_param.batch_size = (B : Int))
    (hsh : p.video_data_kdrf_param.shuffle = false)
    (hdec : ∀ i, i < B → ∀ si, fillFrom c p K i 0 s = .ok si →
      iterationDecodes c p si = true) :
    ∃ s1, fillLoop c p s = .ok s1 ∧
      (∀ i, i < B → ∃ l, s.lines_.get? ((s.lines_id_ + i) % K) = some l ∧
        s1.prefetch_label_.cpu_data i = c.toDtype l.2) ∧
      s1.lines_ = s.lines_ ∧ s1.lines_dir_ = s.lines_dir_ ∧
      s1.lines_duration_ = s.lines_duration_ ∧ s1.lines_id_ = (s.lines_id_ + B) % K := by
  obtain ⟨s1, hrun, e1, e2, e3, hid, hlab, _⟩ :=
    fillFrom_sequential c p K hsh B 0 s hK hc hdec
  refine ⟨s1, ?_, ?_, e1, e2, e3, hid⟩
  · unfold fillLoop
    rw [hK, hB, Int.toNat_natCast]
    exact hrun
  · intro i hi
    obtain ⟨l, h1, h2⟩ := hlab i hi
    exact ⟨l, h1, by rw [← h2, Nat.zero_add]⟩

/-- Witness for C4: the end-to-end scenario.  Records labelled `0, 1, 2`,
`batch_size = 2`, shuffle disabled: the first fill yields labels `[0, 1]`, the
second `[2, 0]`. -/
theorem fill_sequential_wraparound_witness :
    ∃ s1 s2,
      fillLoop sampleCollab (sampleParam false false .TEST .RGB) (layerOf linesThree 0) = .ok s1 ∧
      fillLoop sampleCollab (sampleParam false false .TEST .RGB) s1 = .ok s2 ∧
      (s1.prefetch_label_.cpu_data 0 = 0 ∧ s1.prefetch_label_.cpu_data 1 = 1) ∧
      (s2.prefetch_label_.cpu_data 0 = 2 ∧ s2.prefetch_label_.cpu_data 1 = 0) ∧
      s1.lines_id_ = 2 ∧ s2.lines_id_ = 1 := by
  obtain ⟨s1, h1, hl1, _, _, _, hid1⟩ :=
    fill_sequential_wraparound sampleCollab (sampleParam false false .TEST .RGB)
      (layerOf linesThree 0) 3 2 rfl (by decide) rfl rfl
      (by
        intro i hi si hsi
        match i, hi with
        | 0, _ => cases hsi; rfl
        | 1, _ => cases hsi; rfl)
  have hs : s1 = layerAfterFill (layerOf linesThree 0) := Except.ok.inj (h1.symm.trans rfl)
  subst hs
  obtain ⟨s2, h2, hl2, _, _, _, hid2⟩ :=
    fill_sequential_wraparound sampleCollab (sampleParam false false .TEST .RGB)
      (layerAfterFill (layerOf linesThree 0)) 3 2 rfl (by decide) rfl rfl
      (by
        intro i hi si hsi
        match i, hi with
        | 0, _ => cases hsi; rfl
        | 1, _ => cases hsi; rfl)
  obtain ⟨a0, ha0, hv0⟩ := hl1 0 (by decide)
  obtain ⟨a1, ha1, hv1⟩ := hl1 1 (by decide)
  obtain ⟨b0, hb0, hw0⟩ := hl2 0 (by decide)
  obtain ⟨b1, hb1, hw1⟩ := hl2 1 (by decide)
  cases ha0; cases ha1; cases hb0; cases hb1
  exact ⟨_, s2, h1, h2, ⟨hv0, hv1⟩, ⟨hw0, hw1⟩, hid1, hid2⟩

end FillProofs

section ClaimProofs

variable {G Datum Sample : Type}

/-- C3 (code evaluated at the failing input). Records `a.avi`, `c.avi`,
`video_data_kdrf_param.shuffle` unset and `video_data_param.shuffle` set.  After
setup the first `advance_cursor` call moves the cursor to `1`; the second (the
wrap, `K = 2`) calls `ShuffleVideos` although setup created no generators, so
the run stops there: the `K` advance steps of the first epoch do not complete
and no later epoch is reached.  At the same input the advance at the end of a
fill iteration, which consults `video_data_kdrf_param.shuffle`, completes the
epochs and finds `a.avi` and `c.avi` once each. -/
theorem advance_cursor_breaks_epoch :
    (DataLayerSetUp sampleCollab (sampleParam false true .TEST .RGB) linesPair 0 0
      >>= iterateRun (VideoDataKDRFLayer.advance_cursor sampleCollab
        (sampleParam false true .TEST .RGB)) 1).map (fun s => s.lines_id_) = .ok 1 ∧
    (DataLayerSetUp sampleCollab (sampleParam false true .TEST .RGB) linesPair 0 0
      >>= iterateRun (VideoDataKDRFLayer.advance_cursor sampleCollab
        (sampleParam false true .TEST .RGB)) 2).map (fun s => s.lines_id_) =
      .error .undefined ∧
    (DataLayerSetUp sampleCollab (sampleParam false true .TEST .RGB) linesPair 0 0
      >>= visited (VideoDataKDRFLayer.advance_cursor sampleCollab
        (sampleParam false true .TEST .RGB)) 2) = .error .undefined ∧
    (DataLayerSetUp sampleCollab (sampleParam false true .TEST .RGB) linesPair 0 0
      >>= visited (nextIteration sampleCollab (sampleParam false true .TEST .RGB) 2) 2) =
      .ok [("a.avi", 5), ("c.avi", 7)] ∧
    (DataLayerSetUp sampleCollab (sampleParam false true .TEST .RGB) linesPair 0 0
      >>= iterateRun (nextIteration sampleCollab (sampleParam false true .TEST .RGB) 2) 2
      >>= visited (nextIteration sampleCollab (sampleParam false true .TEST .RGB) 2) 2) =
      .ok [("a.avi", 5), ("c.avi", 7)] :=
  ⟨rfl, rfl, rfl, rfl, rfl⟩

/-- C5 (counterexample). A 2-frame clip with one segment and clip length 5 has
`average_duration = 2 < 5`, yet the evaluation branch returns the offset `-1`
and the training branch (the loop of setup) the offset `12345`; and for a
6-frame clip with 3 segments and clip length 5 (`average_duration = 2 < 5`)
setup and a run of the fill loop both complete, the decoder being handed the
offsets `-1, 1, 3`.  No configuration error is raised. -/
theorem degenerate_range_counterexample :
    (Int.tdiv 2 1 < 5 ∧
      segmentOffsets sampleCollab false 2 1 5 0 = .ok ([-1], 0) ∧
      segmentOffsets sampleCollab true 2 1 5 0 = .ok ([12345], 1)) ∧
    (Int.tdiv 6 3 < 5 ∧
      observe (DataLayerSetUp sampleCollab (sampleParam false false .TEST .RGB) linesShort 0 0
        >>= fillLoop sampleCollab (sampleParam false false .TEST .RGB)) =
      .ok ([("a.avi", 5)], [("mv_a", "tvl1_a")], [6], 0, [5, 5], [[-1, 1, 3], [-1, 1, 3]])) := by
  refine ⟨⟨by decide, rfl, rfl⟩, by decide, rfl⟩

/-- C5 (amended). For a record with `int` duration `D ≥ 0`, `S ≥ 1` segments and
`average_duration = D / S` smaller than the `int` clip length `L`, the offset
computation raises no configuration error.  The evaluation branch returns the
`S` offsets `i * average_duration + (average_duration - L + 1) / 2`, whose
intra-window part is `≤ 0`.  The training branch (also the loop of setup)
returns `S` offsets when `average_duration + 1 < L`; when
`average_duration + 1 = L` its modulus is zero and the computation is
undefined. -/
theorem degenerate_range_not_rejected (c : Collab G Datum Sample)
    (D S L : Int) (g : G) (hD0 : 0 ≤ D) (hD : D < 2147483648) (hS : 1 ≤ S)
    (hL : L < 2147483648) (hdeg : D.tdiv S < L) :
    (∃ offs, segmentOffsets c false D S L g = .ok (offs, g) ∧ offs.length = S.toNat ∧
      (∀ i : Nat, i < S.toNat →
        offs.get? i = some ((i : Int) * D.tdiv S + (D.tdiv S - L + 1).tdiv 2)) ∧
      (D.tdiv S - L + 1).tdiv 2 ≤ 0) ∧
    (D.tdiv S + 1 < L →
      ∃ offs g2, segmentOffsets c true D S L g = .ok (offs, g2) ∧ offs.length = S.toNat) ∧
    (D.tdiv S + 1 = L → segmentOffsets c true D S L g = .error .undefined) := by
  have hdiv : D.tdiv S = D / S := Int.tdiv_eq_ediv hD0 (by omega)
  have havg0 : 0 ≤ D / S := Int.ediv_nonneg hD0 (by omega)
  have havg1 : D / S ≤ D := Int.ediv_le_self _ hD0
  have hnp : (D.tdiv S - L + 1).tdiv 2 ≤ 0 := tdiv_two_nonpos _ (by omega)
  refine ⟨?_, ?_, ?_⟩
  · obtain ⟨offs, hrun, hlen, hget⟩ := segmentOffsets_eval_exact c D S L g hS hD0 hD
      (by omega) (by omega) (by omega)
    exact ⟨offs, hrun, hlen, hget, hnp⟩
  · intro hlt
    unfold segmentOffsets
    rw [if_neg (by omega)]
    exact offsetsLoop_train_ok c _ _ (toU32_of_negative _ (by omega) (by omega)) _ _ _
  · intro heq
    obtain ⟨k, hk⟩ : ∃ k, S.toNat = k + 1 := ⟨S.toNat - 1, by omega⟩
    unfold segmentOffsets
    rw [if_neg (by omega), hk]
    apply offsetsLoop_train_zero
    have hz : D.tdiv S - L + 1 = 0 := by omega
    rw [hz]
    rfl

/-- Witness for C5 (amended): duration 6, three segments, clip length 5. -/
theorem degenerate_range_not_rejected_witness :
    ((0 : Int) ≤ 6 ∧ (6 : Int) < 2147483648 ∧ (1 : Int) ≤ 3 ∧ (5 : Int) < 2147483648 ∧
      Int.tdiv 6 3 < 5) ∧
    (∃ offs, segmentOffsets sampleCollab false 6 3 5 0 = .ok (offs, 0) ∧
      offs.length = (3 : Int).toNat ∧
      (∀ i : Nat, i < (3 : Int).toNat →
        offs.get? i = some ((i : Int) * Int.tdiv 6 3 + (Int.tdiv 6 3 - 5 + 1).tdiv 2)) ∧
      (Int.tdiv 6 3 - 5 + 1).tdiv 2 ≤ 0) ∧
    (Int.tdiv 6 3 + 1 < 5 →
      ∃ offs g2, segmentOffsets sampleCollab true 6 3 5 0 = .ok (offs, g2) ∧
        offs.length = (3 : Int).toNat) ∧
    (Int.tdiv 6 3 + 1 = 5 → segmentOffsets sampleCollab true 6 3 5 0 = .error .undefined) :=
  ⟨by decide,
    degenerate_range_not_rejected sampleCollab 6 3 5 0 (by decide) (by decide) (by decide)
      (by decide) (by decide)⟩

/-- C6 (counterexample). Duration 4, one segment, clip length 3 (`average_duration =
4 ≥ 3`): the evaluation branch returns offset `1`, while the claimed formula
`i * average_duration + (average_duration - L) / 2` gives `0`.  And for duration
`2147483647`, one segment, clip length `0`, `average_duration - L + 1` exceeds
the `int` range: the branch returns `-1073741824`, the claimed formula gives
`1073741823`. -/
theorem eval_midpoint_counterexample :
    ((1 : Int) ≤ 1 ∧ (3 : Int) ≤ Int.tdiv 4 1 ∧
      ∃ o, segmentOffsets sampleCollab false 4 1 3 0 = .ok ([o], 0) ∧
        o ≠ specMidpointOffset 4 1 3 0) ∧
    ((0 : Int) ≤ Int.tdiv 2147483647 1 ∧
      ∃ o, segmentOffsets sampleCollab false 2147483647 1 0 0 = .ok ([o], 0) ∧
        o = -1073741824 ∧ specMidpointOffset 2147483647 1 0 0 = 1073741823) :=
  ⟨⟨by decide, by decide, 1, rfl, by decide⟩,
    by decide, -1073741824, by rfl, rfl, by decide⟩

/-- C6 (amended). Evaluation-mode offsets: for an `int` duration `D`, `S ≥ 1` and clip
length `L ≥ 1` with `average_duration = D / S ≥ L`, the evaluation branch returns
`S` offsets, the `i`-th being `i * average_duration + (average_duration - L + 1) / 2`;
the intra-window part lies in `[0, average_duration - L]`. -/
theorem eval_offsets_formula (c : Collab G Datum Sample) (D S L : Int) (g : G)
    (hD : D < 2147483648) (hS : 1 ≤ S) (hL : 1 ≤ L) (hDL : L ≤ D.tdiv S) :
    ∃ offs, segmentOffsets c false D S L g = .ok (offs, g) ∧ offs.length = S.toNat ∧
      (∀ i : Nat, i < S.toNat →
        offs.get? i = some ((i : Int) * D.tdiv S + (D.tdiv S - L + 1).tdiv 2)) ∧
      0 ≤ (D.tdiv S - L + 1).tdiv 2 ∧ (D.tdiv S - L + 1).tdiv 2 ≤ D.tdiv S - L := by
  have hD0 : 0 ≤ D := by
    by_contra hneg
    have h := Int.tdiv_nonneg (a := -D) (b := S) (by omega) (by omega)
    rw [Int.neg_tdiv] at h
    omega
  have hdiv : D.tdiv S = D / S := Int.tdiv_eq_ediv hD0 (by omega)
  have havg1 : D / S ≤ D := Int.ediv_le_self _ hD0
  obtain ⟨hr0, hr1⟩ := eval_offset_range _ _ hDL
  obtain ⟨offs, hrun, hlen, hget⟩ := segmentOffsets_eval_exact c D S L g hS hD0 hD
    (by omega) (by omega) (by omega)
  exact ⟨offs, hrun, hlen, hget, hr0, hr1⟩

/-- Witness for C6 (amended): duration 30, three segments, clip length 5. -/
theorem eval_offsets_formula_witness :
    ((30 : Int) < 2147483648 ∧ (1 : Int) ≤ 3 ∧ (1 : Int) ≤ 5 ∧ (5 : Int) ≤ Int.tdiv 30 3) ∧
    ∃ offs, segmentOffsets sampleCollab false 30 3 5 0 = .ok (offs, 0) ∧
      offs.length = (3 : Int).toNat ∧
      (∀ i : Nat, i < (3 : Int).toNat →
        offs.get? i = some ((i : Int) * Int.tdiv 30 3 + (Int.tdiv 30 3 - 5 + 1).tdiv 2)) ∧
      0 ≤ (Int.tdiv 30 3 - 5 + 1).tdiv 2 ∧ (Int.tdiv 30 3 - 5 + 1).tdiv 2 ≤ Int.tdiv 30 3 - 5 :=
  ⟨by decide,
    eval_offsets_formula sampleCollab 30 3 5 0 (by decide) (by decide) (by decide) (by decide)⟩

/-- C2 (code evaluated at the failing input). Records `a.avi`, `corrupt.avi`, `c.avi`,
`batch_size = 2`: after setup and one run of the fill loop, slot `0` holds the
sample and label `5` of `a.avi`, while slot `1` still holds what setup left
there (label `0`, blank data) although `c.avi` decodes. -/
theorem fill_leaves_slot_unwritten :
    observe (DataLayerSetUp sampleCollab (sampleParam false false .TEST .RGB) linesWithCorrupt 0 0
      >>= fillLoop sampleCollab (sampleParam false false .TEST .RGB)) =
    .ok ([("a.avi", 5), ("corrupt.avi", 6), ("c.avi", 7)],
      [("mv_a", "tvl1_a"), ("mv_x", "tvl1_x"), ("mv_c", "tvl1_c")],
      [30, 40, 50], 1, [5, 0], [[3, 13, 23], []]) := rfl

/-- C7 (code evaluated at the failing input). With the cursor on `corrupt.avi`
(index `1`), a fill iteration whose decode fails leaves the cursor at `1`, not at
`2`, and writes nothing. -/
theorem cursor_stays_on_decode_failure :
    observe (fillIteration sampleCollab (sampleParam false false .TEST .RGB) 3 0
      (layerOf linesWithCorrupt 1)) =
    .ok ([("a.avi", 5), ("corrupt.avi", 6), ("c.avi", 7)],
      [("mv_a", "tvl1_a"), ("mv_x", "tvl1_x"), ("mv_c", "tvl1_c")],
      [30, 40, 50], 1, [0, 0], [[], []]) := rfl

/-- C8 (code evaluated at the failing input). Setup with `shuffle` set reorders
`lines_` and `lines_duration_` but not `lines_dir_`: index `0` then holds
`c.avi` together with the directories read on the line of `a.avi`. -/
theorem shuffle_breaks_dir_pairing :
    observe (DataLayerSetUp sampleCollab (sampleParam true false .TEST .FLOW) linesWithCorrupt 0 0) =
    .ok ([("c.avi", 7), ("corrupt.avi", 6), ("a.avi", 5)],
      [("mv_a", "tvl1_a"), ("mv_x", "tvl1_x"), ("mv_c", "tvl1_c")],
      [50, 40, 30], 0, [0, 0], [[], []]) := rfl

/-- C9 (code evaluated at the failing input). Two records, `video_data_kdrf_param.shuffle`
set and `video_data_param.shuffle` unset: after setup, two successful fill
iterations wrap and reshuffle (`lines_` becomes `a.avi, c.avi`), whereas
`OffsetCursor(2)` wraps without reshuffling (`lines_` stays `c.avi, a.avi`).
With the two flags the other way round, `OffsetCursor(2)` calls `ShuffleVideos`
on generators that were never created. -/
theorem offsetCursor_diverges_from_fill :
    (observe (DataLayerSetUp sampleCollab (sampleParam true false .TEST .RGB) linesPair 0 0
      >>= fillLoop sampleCollab (sampleParam true false .TEST .RGB))).map
        (fun o => (o.1, o.2.2.2.1)) = .ok ([("a.avi", 5), ("c.avi", 7)], 0) ∧
    (observe (DataLayerSetUp sampleCollab (sampleParam true false .TEST .RGB) linesPair 0 0
      >>= OffsetCursor sampleCollab (sampleParam true false .TEST .RGB) true 2)).map
        (fun o => (o.1, o.2.2.2.1)) = .ok ([("c.avi", 7), ("a.avi", 5)], 0) ∧
    observe (DataLayerSetUp sampleCollab (sampleParam false true .TEST .RGB) linesPair 0 0
      >>= OffsetCursor sampleCollab (sampleParam false true .TEST .RGB) true 2) =
        .error .undefined :=
  ⟨rfl, rfl, rfl⟩

/-- C10 (counterexample). A `DataLayer` in `SHUFFLE` mode: `advance_cursor` moves
neither the shuffle cursor nor the database cursor to the next of the three
records. -/
theorem dataLayer_shuffle_mode_counterexample :
    dataLayerShuf.cur_input_mode_ = .SHUFFLE ∧
    (DataLayer.advance_cursor sampleCollab.shuffleIdx true dataLayerShuf).shuffle_cursor_ ≠
      (dataLayerShuf.shuffle_cursor_ + 1) % 3 ∧
    (DataLayer.advance_cursor sampleCollab.shuffleIdx true dataLayerShuf).cursor_.pos ≠
      (dataLayerShuf.cursor_.pos + 1) % 3 := by
  refine ⟨rfl, by decide, by decide⟩

/-- C10 (amended). In `SEQUENCE` mode, with the cursor on a record, one call of
`advance_cursor` moves the database cursor forward by exactly one record,
wrapping to the first after the last; in `SHUFFLE` mode the call changes
nothing. -/
theorem dataLayer_advance_cursor_by_mode (shuffleIdx : G → Nat → List Nat × G)
    (shuffle : Bool) (s : DataLayer G) :
    (s.cur_input_mode_ = .SEQUENCE → s.cursor_.pos < s.cursor_.size →
      (DataLayer.advance_cursor shuffleIdx shuffle s).cursor_.pos =
        (s.cursor_.pos + 1) % s.cursor_.size ∧
      (DataLayer.advance_cursor shuffleIdx shuffle s).cursor_.size = s.cursor_.size) ∧
    (s.cur_input_mode_ = .SHUFFLE → DataLayer.advance_cursor shuffleIdx shuffle s = s) := by
  constructor
  · intro hm hpos
    unfold DataLayer.advance_cursor
    rw [hm]
    by_cases hv : s.cursor_.pos + 1 < s.cursor_.size
    · simp [Cursor.valid, Cursor.Next, hv, Nat.mod_eq_of_lt hv]
    · have he : s.cursor_.pos + 1 = s.cursor_.size := by omega
      cases shuffle <;>
        simp [Cursor.valid, Cursor.Next, Cursor.SeekToFirst, hv, he]
  · intro hm
    unfold DataLayer.advance_cursor
    rw [hm]

/-- Witness for C10 (amended): a `SEQUENCE`-mode layer on the last of three records
wraps to the first; a `SHUFFLE`-mode layer is left as it is. -/
theorem dataLayer_advance_cursor_by_mode_witness :
    ((DataLayer.advance_cursor sampleCollab.shuffleIdx false dataLayerSeq).cursor_.pos =
        (dataLayerSeq.cursor_.pos + 1) % dataLayerSeq.cursor_.size ∧
      (DataLayer.advance_cursor sampleCollab.shuffleIdx false dataLayerSeq).cursor_.size =
        dataLayerSeq.cursor_.size) ∧
    DataLayer.advance_cursor sampleCollab.shuffleIdx true dataLayerShuf = dataLayerShuf :=
  ⟨(dataLayer_advance_cursor_by_mode sampleCollab.shuffleIdx false dataLayerSeq).1 rfl
      (by decide),
    (dataLayer_advance_cursor_by_mode sampleCollab.shuffleIdx true dataLayerShuf).2 rfl⟩

end ClaimProofs

section LaterProofs

variable {G Datum Sample : Type}

theorem advance_cursor_sequence_inside (shuffleIdx : G → Nat → List Nat × G) (shuffle : Bool)
    (s : DataLayer G) (hm : s.cur_input_mode_ = .SEQUENCE)
    (h : s.cursor_.pos + 1 < s.cursor_.size) :
    DataLayer.advance_cursor shuffleIdx shuffle s = { s with cursor_ := s.cursor_.Next } := by
  unfold DataLayer.advance_cursor
  rw [hm]
  simp [Cursor.valid, Cursor.Next, h]

theorem advance_cursor_sequence_wrap (shuffleIdx : G → Nat → List Nat × G) (shuffle : Bool)
    (s : DataLayer G) (hm : s.cur_input_mode_ = .SEQUENCE)
    (h : s.cursor_.pos + 1 = s.cursor_.size) :
    ((DataLayer.advance_cursor shuffleIdx shuffle s).cur_input_mode_ = .SHUFFLE ↔
        shuffle = true) ∧
    (DataLayer.advance_cursor shuffleIdx shuffle s).cursor_.pos = 0 ∧
    (DataLayer.advance_cursor shuffleIdx shuffle s).cursor_.size = s.cursor_.size := by
  unfold DataLayer.advance_cursor
  rw [hm]
  cases shuffle <;> simp [Cursor.valid, Cursor.Next, Cursor.SeekToFirst, h, hm]

theorem advanceTimes_succ (shuffleIdx : G → Nat → List Nat × G) (shuffle : Bool) :
    ∀ (n : Nat) (s : DataLayer G),
      DataLayer.advanceTimes shuffleIdx shuffle (n + 1) s =
        DataLayer.advance_cursor shuffleIdx shuffle
          (DataLayer.advanceTimes shuffleIdx shuffle n s) := by
  intro n
  induction n with
  | zero => intro s; rfl
  | succ n ih =>
    intro s
    rw [DataLayer.advanceTimes, ih]
    rfl

theorem advanceTimes_sequence (shuffleIdx : G → Nat → List Nat × G) (shuffle : Bool) :
    ∀ (j : Nat) (s : DataLayer G), s.cur_input_mode_ = .SEQUENCE →
      s.cursor_.pos + j < s.cursor_.size →
      DataLayer.advanceTimes shuffleIdx shuffle j s =
        { s with cursor_ := { s.cursor_ with pos := s.cursor_.pos + j } } := by
  intro j
  induction j with
  | zero => intro s _ _; rfl
  | succ j ih =>
    intro s hm h
    have e : s.cursor_.pos + 1 + j = s.cursor_.pos + (j + 1) := by omega
    have hrec := ih { s with cursor_ := s.cursor_.Next } hm
      (by show s.cursor_.pos + 1 + j < s.cursor_.size; omega)
    rw [DataLayer.advanceTimes, advance_cursor_sequence_inside shuffleIdx shuffle s hm (by omega),
      hrec]
    simp only [Cursor.Next, e]

theorem advanceTimes_shuffle (shuffleIdx : G → Nat → List Nat × G) (shuffle : Bool) :
    ∀ (n : Nat) (t : DataLayer G), t.cur_input_mode_ = .SHUFFLE →
      DataLayer.advanceTimes shuffleIdx shuffle n t = t := by
  intro n
  induction n with
  | zero => intro t _; rfl
  | succ n ih =>
    intro t ht
    have hstep : DataLayer.advance_cursor shuffleIdx shuffle t = t := by
      unfold DataLayer.advance_cursor
      rw [ht]
    rw [DataLayer.advanceTimes, hstep]
    exact ih t ht

/-- C11. One-way switch to shuffled mode: a `DataLayer` in `SEQUENCE` mode with the
cursor on a record (`pos < size`) stays in `SEQUENCE` mode and moves through the
records in store order (`pos`, `pos + 1`, ...) until the first wrap; the call
that wraps (number `size - pos`) puts the cursor back on the first record and
leaves the mode `SHUFFLE` if and only if `shuffle` is enabled; and from a layer
in `SHUFFLE` mode no number of `advance_cursor` calls leads back to
`SEQUENCE`. -/
theorem dataLayer_one_way_switch (shuffleIdx : G → Nat → List Nat × G) (shuffle : Bool)
    (s : DataLayer G) (hm : s.cur_input_mode_ = .SEQUENCE)
    (hpos : s.cursor_.pos < s.cursor_.size) :
    (∀ j, s.cursor_.pos + j < s.cursor_.size →
      (DataLayer.advanceTimes shuffleIdx shuffle j s).cur_input_mode_ = .SEQUENCE ∧
      (DataLayer.advanceTimes shuffleIdx shuffle j s).cursor_.pos = s.cursor_.pos + j) ∧
    (((DataLayer.advanceTimes shuffleIdx shuffle (s.cursor_.size - s.cursor_.pos)
        s).cur_input_mode_ = .SHUFFLE ↔ shuffle = true) ∧
      (DataLayer.advanceTimes shuffleIdx shuffle (s.cursor_.size - s.cursor_.pos)
        s).cursor_.pos = 0) ∧
    (∀ t : DataLayer G, t.cur_input_mode_ = .SHUFFLE → ∀ n,
      (DataLayer.advanceTimes shuffleIdx shuffle n t).cur_input_mode_ = .SHUFFLE) := by
  refine ⟨?_, ?_, ?_⟩
  · intro j hj
    rw [advanceTimes_sequence shuffleIdx shuffle j s hm hj]
    exact ⟨hm, rfl⟩
  · obtain ⟨k, hk⟩ : ∃ k, s.cursor_.size - s.cursor_.pos = k + 1 :=
      ⟨s.cursor_.size - s.cursor_.pos - 1, by omega⟩
    rw [hk, advanceTimes_succ, advanceTimes_sequence shuffleIdx shuffle k s hm (by omega)]
    obtain ⟨h1, h2, _⟩ := advance_cursor_sequence_wrap shuffleIdx shuffle
      { s with cursor_ := { s.cursor_ with pos := s.cursor_.pos + k } } hm
      (by simp only; omega)
    exact ⟨h1, h2⟩
  · intro t ht n
    rw [advanceTimes_shuffle shuffleIdx shuffle n t ht]
    exact ht

/-- Witness for C11: three records, cursor on the first, shuffle enabled. -/
theorem dataLayer_one_way_switch_witness :
    (∀ j, 0 + j < 3 →
      (DataLayer.advanceTimes sampleCollab.shuffleIdx true j
        { dataLayerSeq with cursor_ := { size := 3, pos := 0 } }).cur_input_mode_ = .SEQUENCE ∧
      (DataLayer.advanceTimes sampleCollab.shuffleIdx true j
        { dataLayerSeq with cursor_ := { size := 3, pos := 0 } }).cursor_.pos = 0 + j) ∧
    (((DataLayer.advanceTimes sampleCollab.shuffleIdx true (3 - 0)
        { dataLayerSeq with cursor_ := { size := 3, pos := 0 } }).cur_input_mode_ = .SHUFFLE ↔
        true = true) ∧
      (DataLayer.advanceTimes sampleCollab.shuffleIdx true (3 - 0)
        { dataLayerSeq with cursor_ := { size := 3, pos := 0 } }).cursor_.pos = 0) ∧
    (∀ t : DataLayer Nat, t.cur_input_mode_ = .SHUFFLE → ∀ n,
      (DataLayer.advanceTimes sampleCollab.shuffleIdx true n t).cur_input_mode_ = .SHUFFLE) :=
  dataLayer_one_way_switch sampleCollab.shuffleIdx true
    { dataLayerSeq with cursor_ := { size := 3, pos := 0 } } rfl (by decide)

theorem permuteBy_map {α β : Type} (f : α → β) (ix : List Nat) (xs : List α) :
    permuteBy ix (xs.map f) = (permuteBy ix xs).map f := by
  unfold permuteBy
  induction ix with
  | nil => rfl
  | cons j ix ih =>
    simp only [List.filterMap_cons, List.get?_eq_getElem?, List.getElem?_map] at ih ⊢
    cases hx : xs[j]? with
    | none => simpa [hx] using ih
    | some x => simpa [hx] using ih

theorem permuteBy_mem {α : Type} (ix : List Nat) (xs : List α) :
    ∀ x ∈ permuteBy ix xs, x ∈ xs := by
  intro x hx
  unfold permuteBy at hx
  obtain ⟨j, _, hj⟩ := List.mem_filterMap.mp hx
  exact List.get?_mem hj

theorem ShuffleVideos_aligned (c : Collab G Datum Sample) (infile : List InputLine)
    (s : VideoDataKDRFLayer G Sample) (g : G)
    (h1 : s.prefetch_rng_1_ = some g) (h2 : s.prefetch_rng_2_ = some g)
    (ha : durationsAligned infile s) :
    ∃ s1 g1, ShuffleVideos c s = .ok s1 ∧ s1.prefetch_rng_1_ = some g1 ∧
      s1.prefetch_rng_2_ = some g1 ∧ durationsAligned infile s1 ∧
      s1.lines_dir_ = s.lines_dir_ := by
  obtain ⟨ls, hmem, hl, hd⟩ := ha
  have hlen : s.lines_duration_.length = s.lines_.length := by
    rw [hl, hd, List.length_map, List.length_map]
  unfold ShuffleVideos
  rw [h1, h2]
  simp only [hlen]
  refine ⟨_, _, rfl, rfl, rfl, ?_, rfl⟩
  refine ⟨permuteBy (c.shuffleIdx g s.lines_.length).1 ls, ?_, ?_, ?_⟩
  · intro l hlm
    exact hmem l (permuteBy_mem _ _ l hlm)
  · simp only [hl, permuteBy_map]
  · simp only [hd, permuteBy_map]

theorem iterate_ShuffleVideos_aligned (c : Collab G Datum Sample) (infile : List InputLine) :
    ∀ (n : Nat) (s : VideoDataKDRFLayer G Sample) (g : G),
      s.prefetch_rng_1_ = some g → s.prefetch_rng_2_ = some g → durationsAligned infile s →
      ∃ sn gn, iterateRun (ShuffleVideos c) n s = .ok sn ∧ sn.prefetch_rng_1_ = some gn ∧
        sn.prefetch_rng_2_ = some gn ∧ durationsAligned infile sn := by
  intro n
  induction n with
  | zero => intro s g h1 h2 ha; exact ⟨s, g, rfl, h1, h2, ha⟩
  | succ n ih =>
    intro s g h1 h2 ha
    obtain ⟨s1, g1, hrun, e1, e2, ha1, _⟩ := ShuffleVideos_aligned c infile s g h1 h2 ha
    obtain ⟨sn, gn, hrunn, f1, f2, han⟩ := ih s1 g1 e1 e2 ha1
    refine ⟨sn, gn, ?_, f1, f2, han⟩
    simp only [iterateRun, hrun]
    exact hrunn

theorem permuteBy_nil {α : Type} (ix : List Nat) : permuteBy ix ([] : List α) = [] := by
  unfold permuteBy
  induction ix with
  | nil => rfl
  | cons j ix ih => simp [ih]

theorem bind_eq_ok {α β : Type} {x : Run α} {f : α → Run β} {b : β}
    (h : x >>= f = .ok b) : ∃ a, x = .ok a ∧ f a = .ok b := by
  cases x with
  | error e => cases h
  | ok a => exact ⟨a, rfl, h⟩

theorem DataLayerSetUp_aligned (c : Collab G Datum Sample) (p : LayerParameter)
    (infile : List InputLine) (a b : Nat) (s : VideoDataKDRFLayer G Sample)
    (hsetup : DataLayerSetUp c p infile a b = .ok s) :
    s.prefetch_rng_1_ = s.prefetch_rng_2_ ∧ durationsAligned infile s ∧
    (p.video_data_kdrf_param.shuffle = true →
      ∃ g, s.prefetch_rng_1_ = some g ∧ s.prefetch_rng_2_ = some g) := by
  have hbase : durationsAligned infile
      ({ lines_ := infile.map (fun l => (l.filename, l.label))
         lines_dir_ := infile.map (fun l => (l.dir_mvs, l.dir_tvl1))
         lines_duration_ := infile.map (fun l => l.length)
         lines_id_ := 0
         prefetch_rng_1_ := some (c.mkRng a)
         prefetch_rng_2_ := some (c.mkRng a)
         frame_prefetch_rng_ := c.mkRng b
         prefetch_data_ := { count := 0, cpu_data := fun _ => c.blank }
         prefetch_label_ := { count := 0, cpu_data := fun _ => 0 } } :
        VideoDataKDRFLayer G Sample) :=
    ⟨infile, fun _ hl => hl, rfl, rfl⟩
  unfold DataLayerSetUp at hsetup
  dsimp only at hsetup
  cases hsh : p.video_data_kdrf_param.shuffle with
  | false =>
    rw [hsh] at hsetup
    simp only [Bool.false_eq_true, if_false] at hsetup
    obtain ⟨s1, hs1, h⟩ := bind_eq_ok hsetup
    obtain ⟨duration, _, h⟩ := bind_eq_ok h
    obtain ⟨r, _, h⟩ := bind_eq_ok h
    obtain ⟨res, _, h⟩ := bind_eq_ok h
    cases hs1
    cases res with
    | none => cases h
    | some datum =>
      cases h
      refine ⟨rfl, ⟨infile, fun _ hl => hl, rfl, rfl⟩, ?_⟩
      intro hh; cases hh
  | true =>
    rw [hsh] at hsetup
    simp only [if_true] at hsetup
    obtain ⟨s1, hs1, h⟩ := bind_eq_ok hsetup
    obtain ⟨duration, _, h⟩ := bind_eq_ok h
    obtain ⟨r, _, h⟩ := bind_eq_ok h
    obtain ⟨res, _, h⟩ := bind_eq_ok h
    obtain ⟨s2, g1, hrun, f1, f2, ha, _⟩ :=
      ShuffleVideos_aligned c infile _ (c.mkRng a) rfl rfl hbase
    have hs : s1 = s2 := by
      have := hs1.symm.trans hrun
      cases this
      rfl
    subst hs
    obtain ⟨ls, hm, hl, hd⟩ := ha
    cases res with
    | none => cases h
    | some datum =>
      cases h
      exact ⟨f1.trans f2.symm, ⟨ls, hm, hl, hd⟩, fun _ => ⟨g1, f1, f2⟩⟩

/-- C13. Durations stay aligned with records across reshuffles: in the state `s` that
`DataLayerSetUp` returns, `prefetch_rng_1_` and `prefetch_rng_2_` are in equal
states and `lines_duration_[i]` is the frame count of the input line `lines_[i]`
comes from, for every `i`; and when `shuffle` is set, any number `n` of further
`ShuffleVideos` calls succeeds and leaves both properties in force. -/
theorem durations_stay_aligned (c : Collab G Datum Sample) (p : LayerParameter)
    (infile : List InputLine) (prefetch_seed frame_seed : Nat)
    (s : VideoDataKDRFLayer G Sample)
    (hsetup : DataLayerSetUp c p infile prefetch_seed frame_seed = .ok s) (n : Nat) :
    (s.prefetch_rng_1_ = s.prefetch_rng_2_ ∧ durationsAligned infile s) ∧
    (p.video_data_kdrf_param.shuffle = true →
      ∃ sn, iterateRun (ShuffleVideos c) n s = .ok sn ∧
        sn.prefetch_rng_1_ = sn.prefetch_rng_2_ ∧ durationsAligned infile sn) := by
  obtain ⟨h1, h2, h3⟩ := DataLayerSetUp_aligned c p infile prefetch_seed frame_seed s hsetup
  refine ⟨⟨h1, h2⟩, ?_⟩
  intro hsh
  obtain ⟨g, hg1, hg2⟩ := h3 hsh
  obtain ⟨sn, gn, hrun, f1, f2, han⟩ := iterate_ShuffleVideos_aligned c infile n s g hg1 hg2 h2
  exact ⟨sn, hrun, by rw [f1, f2], han⟩

/-- Witness for C13: setup on the three-line list with `shuffle` set, followed by
four further reshuffles. -/
theorem durations_stay_aligned_witness :
    ∃ s, DataLayerSetUp sampleCollab (sampleParam true false .TEST .RGB) linesWithCorrupt 0 0 =
        .ok s ∧
      (s.prefetch_rng_1_ = s.prefetch_rng_2_ ∧ durationsAligned linesWithCorrupt s) ∧
      ((sampleParam true false .TEST .RGB).video_data_kdrf_param.shuffle = true →
        ∃ sn, iterateRun (ShuffleVideos sampleCollab) 4 s = .ok sn ∧
          sn.prefetch_rng_1_ = sn.prefetch_rng_2_ ∧ durationsAligned linesWithCorrupt sn) :=
  ⟨_, rfl, durations_stay_aligned sampleCollab (sampleParam true false .TEST .RGB)
    linesWithCorrupt 0 0 _ rfl 4⟩

/-- C12 (code evaluated at the failing input). With an empty record list
`DataLayerSetUp` raises no fatal error for any configuration or seeds: it goes
on to read `lines_duration_[0]` of the empty vector, which is undefined.  The
guard exists on the sibling path only: the fill loop's `CHECK_GT(lines_size,
lines_id_)` is fatal for `lines_size = 0`, whatever the state. -/
theorem setup_on_empty_list_not_fatal (c : Collab G Datum Sample) (p : LayerParameter)
    (prefetch_seed frame_seed : Nat) :
    DataLayerSetUp c p [] prefetch_seed frame_seed = .error .undefined ∧
    ∀ (item_id : Nat) (s : VideoDataKDRFLayer G Sample),
      fillIteration c p 0 item_id s = .error .fatal := by
  constructor
  · unfold DataLayerSetUp
    dsimp only
    cases hsh : p.video_data_kdrf_param.shuffle
    · simp only [Bool.false_eq_true, if_false]
      rfl
    · simp only [if_true, ShuffleVideos, List.map_nil, permuteBy_nil, bind, Except.bind, idx,
        List.get?_nil]
  · intro item_id s
    unfold fillIteration
    simp

end LaterProofs

end caffe
